import Mathlib

/-!
Verification development for the APILog report-synthesis pipeline
(`back/app/plugins/widgets/ai_report/service.py`,
`back/app/plugins/widgets/ai_insights/service.py`,
`back/app/plugins/widgets/ai_insights/explain_service.py`).

The Python code is shallowly embedded: pure helpers become Lean functions,
network calls become explicit oracle parameters, Python `float` arithmetic is
modelled over `ℚ`, and Python exceptions become `Except`/`Option` values.
JSON numbers are modelled as integers (the pipeline only produces and consumes
integral counts and scores; fractional literals, `NaN`/`Infinity` tokens and
lone-surrogate escapes are out of scope of the embedding and are noted where
they would matter).
-/

namespace APILog

/-- A JSON value as handled by Python's `json` module in the pipeline.
Numbers are modelled as integers. -/
inductive Json where
  | null
  | bool (b : Bool)
  | num (n : Int)
  | str (s : String)
  | arr (items : List Json)
  | obj (pairs : List (String × Json))
deriving Repr, Inhabited

/-- The left-brace character, written by code point to keep string scanning
elsewhere simple. -/
def lbrace : Char := Char.ofNat 123

/-- The right-brace character. -/
def rbrace : Char := Char.ofNat 125

/-- JSON whitespace accepted by `json.loads` between tokens. -/
def jsonWs (c : Char) : Bool :=
  c == ' ' || c == Char.ofNat 9 || c == Char.ofNat 10 || c == Char.ofNat 13

/-- Drop leading JSON whitespace. -/
def dropWs : List Char → List Char
  | [] => []
  | c :: cs => if jsonWs c then dropWs cs else c :: cs

/-- Decimal digit test. -/
def isDig (c : Char) : Bool := '0' ≤ c && c ≤ '9'

/-- Split a leading run of decimal digits from the rest. -/
def grabDigits : List Char → List Char × List Char
  | [] => ([], [])
  | c :: cs =>
      if isDig c then
        let (ds, r) := grabDigits cs
        (c :: ds, r)
      else ([], c :: cs)

/-- Value of a digit run, most significant digit first. -/
def digitsVal (ds : List Char) : Nat :=
  ds.foldl (fun a c => a * 10 + (c.toNat - '0'.toNat)) 0

/-- Value of one hexadecimal digit, as accepted in a `\uXXXX` escape. -/
def hexNib (c : Char) : Option Nat :=
  let n := c.toNat
  if 48 ≤ n && n ≤ 57 then some (n - 48)
  else if 97 ≤ n && n ≤ 102 then some (n - 87)
  else if 65 ≤ n && n ≤ 70 then some (n - 55)
  else none

/-- Value of four hexadecimal digits. -/
def hexQuad (a b c d : Char) : Option Nat := do
  let x ← hexNib a
  let y ← hexNib b
  let z ← hexNib c
  let w ← hexNib d
  return ((x * 16 + y) * 16 + z) * 16 + w

/-- Short escapes accepted after a backslash by the JSON string grammar. -/
def shortEscape : Char → Option Char
  | 'n' => some (Char.ofNat 10)
  | 't' => some (Char.ofNat 9)
  | 'r' => some (Char.ofNat 13)
  | 'b' => some (Char.ofNat 8)
  | 'f' => some (Char.ofNat 12)
  | '/' => some '/'
  | '\\' => some '\\'
  | '"' => some '"'
  | _ => none

/-- A code unit from a `\uXXXX` escape as a `Char`; code points that are not
valid scalar values (lone surrogates, which Lean's `Char` cannot carry) are
mapped to U+FFFD. -/
def codeUnitChar (n : Nat) : Char :=
  if h : n.isValidChar then Char.ofNatAux n h else Char.ofNat 0xFFFD

/-- Combine a UTF-16 surrogate pair into its scalar value. -/
def joinSurrogates (hi lo : Nat) : Char :=
  codeUnitChar (0x10000 + (hi - 0xD800) * 0x400 + (lo - 0xDC00))

/-- Is `n` a high (leading) surrogate code unit? -/
def isHighSur (n : Nat) : Bool := 0xD800 ≤ n && n < 0xDC00

/-- Is `n` a low (trailing) surrogate code unit? -/
def isLowSur (n : Nat) : Bool := 0xDC00 ≤ n && n < 0xE000

/-- Body of a JSON string literal, after the opening quote: models the strict
`json.loads` string scanner (escapes, `\uXXXX` with surrogate-pair joining,
raw control characters rejected). -/
def readStr (fuel : Nat) (acc : List Char) (input : List Char) :
    Option (String × List Char) :=
  match fuel with
  | 0 => none
  | fuel + 1 =>
    match input with
    | [] => none
    | c :: cs =>
      if c = '"' then some (String.mk acc.reverse, cs)
      else if c = '\\' then
        match cs with
        | [] => none
        | e :: cs2 =>
          if e = 'u' then
            match cs2 with
            | a :: b :: c3 :: d :: cs3 =>
              match hexQuad a b c3 d with
              | none => none
              | some n =>
                if isHighSur n then
                  match cs3 with
                  | '\\' :: 'u' :: a2 :: b2 :: c4 :: d2 :: cs4 =>
                    match hexQuad a2 b2 c4 d2 with
                    | none => none
                    | some m =>
                      if isLowSur m then
                        readStr fuel (joinSurrogates n m :: acc) cs4
                      else
                        readStr fuel (codeUnitChar m :: codeUnitChar n :: acc) cs4
                  | _ => readStr fuel (codeUnitChar n :: acc) cs3
                else readStr fuel (codeUnitChar n :: acc) cs3
            | _ => none
          else
            match shortEscape e with
            | some ch => readStr fuel (ch :: acc) cs2
            | none => none
      else if c.toNat < 0x20 then none
      else readStr fuel (c :: acc) cs

/-- Leading integer literal (optional minus, then digits): the numeric subset
of the JSON number grammar kept by this embedding. -/
def readInt (cs : List Char) : Option (Int × List Char) :=
  match cs with
  | '-' :: r =>
      let (ds, r2) := grabDigits r
      if ds.isEmpty then none else some (-(digitsVal ds : Int), r2)
  | _ =>
      let (ds, r2) := grabDigits cs
      if ds.isEmpty then none else some ((digitsVal ds : Int), r2)

mutual

/-- One JSON value, recursive descent with a fuel bound (the fuel only has to
exceed the nesting depth; `parseDoc` passes the input length). -/
def parseVal (fuel : Nat) (cs : List Char) : Option (Json × List Char) :=
  match fuel with
  | 0 => none
  | fuel + 1 =>
    match dropWs cs with
    | 'n' :: 'u' :: 'l' :: 'l' :: r => some (.null, r)
    | 't' :: 'r' :: 'u' :: 'e' :: r => some (.bool true, r)
    | 'f' :: 'a' :: 'l' :: 's' :: 'e' :: r => some (.bool false, r)
    | '"' :: r =>
        match readStr (r.length + 1) [] r with
        | some (s, r2) => some (.str s, r2)
        | none => none
    | c :: r =>
        if c = '[' then
          match dropWs r with
          | [] => none
          | c2 :: r2 =>
              if c2 = ']' then some (.arr [], r2)
              else
                match parseItems fuel (c2 :: r2) with
                | some (es, r3) => some (.arr es, r3)
                | none => none
        else if c = lbrace then
          match dropWs r with
          | [] => none
          | c2 :: r2 =>
              if c2 = rbrace then some (.obj [], r2)
              else
                match parsePairs fuel (c2 :: r2) with
                | some (ms, r3) => some (.obj ms, r3)
                | none => none
        else if c = '-' || isDig c then
          match readInt (c :: r) with
          | some (n, r2) => some (.num n, r2)
          | none => none
        else none
    | [] => none

/-- One-or-more comma-separated array items, then `]`. -/
def parseItems (fuel : Nat) (cs : List Char) : Option (List Json × List Char) :=
  match fuel with
  | 0 => none
  | fuel + 1 =>
    match parseVal fuel cs with
    | none => none
    | some (v, r) =>
        match dropWs r with
        | c :: r2 =>
            if c = ',' then
              match parseItems fuel (dropWs r2) with
              | some (vs, r3) => some (v :: vs, r3)
              | none => none
            else if c = ']' then some ([v], r2)
            else none
        | [] => none

/-- One-or-more comma-separated `"key": value` members, then the closing
brace. -/
def parsePairs (fuel : Nat) (cs : List Char) :
    Option (List (String × Json) × List Char) :=
  match fuel with
  | 0 => none
  | fuel + 1 =>
    match dropWs cs with
    | '"' :: r =>
        match readStr (r.length + 1) [] r with
        | none => none
        | some (k, r1) =>
            match dropWs r1 with
            | ':' :: r2 =>
                match parseVal fuel r2 with
                | none => none
                | some (v, r3) =>
                    match dropWs r3 with
                    | c :: r4 =>
                        if c = ',' then
                          match parsePairs fuel (dropWs r4) with
                          | some (ms, r5) => some ((k, v) :: ms, r5)
                          | none => none
                        else if c = rbrace then some ((k, v) :: [], r4)
                        else none
                    | [] => none
            | _ => none
    | _ => none

end

/-- Model of `json.loads` on the embedded grammar: one value, surrounding
whitespace allowed, trailing data rejected. -/
def parseDoc (s : String) : Option Json :=
  match parseVal (s.toList.length + 1) s.toList with
  | some (v, rest) => if (dropWs rest).isEmpty then some v else none
  | none => none

/-- Lower hexadecimal digit character for `n < 16`. -/
def hexDigChar (n : Nat) : Char :=
  if n < 10 then Char.ofNat (48 + n) else Char.ofNat (87 + n)

/-- `json.dumps` escaping of one string character (`ensure_ascii=False`
flavour: quote, backslash and control characters only). -/
def escapeOne (c : Char) : List Char :=
  if c = '"' then ['\\', '"']
  else if c = '\\' then ['\\', '\\']
  else if c = Char.ofNat 8 then ['\\', 'b']
  else if c = Char.ofNat 9 then ['\\', 't']
  else if c = Char.ofNat 10 then ['\\', 'n']
  else if c = Char.ofNat 12 then ['\\', 'f']
  else if c = Char.ofNat 13 then ['\\', 'r']
  else if c.toNat < 0x20 then
    ['\\', 'u', '0', '0', hexDigChar (c.toNat / 16), hexDigChar (c.toNat % 16)]
  else [c]

/-- A rendered string literal: quote, escaped body, quote. -/
def renderStr (s : String) : List Char :=
  '"' :: (s.toList.flatMap escapeOne ++ ['"'])

/-- Decimal digits of `n`, most significant first, onto `acc`. -/
def natChars (n : Nat) (acc : List Char) : List Char :=
  if n < 10 then Char.ofNat ('0'.toNat + n % 10) :: acc
  else natChars (n / 10) (Char.ofNat ('0'.toNat + n % 10) :: acc)
termination_by n
decreasing_by omega

/-- Decimal characters of an integer, as `str(int)` prints it. -/
def intChars (i : Int) : List Char :=
  (if i < 0 then ['-'] else []) ++ natChars i.natAbs []

mutual

/-- Model of `json.dumps` with its default separators (`", "` and `": "`). -/
def render : Json → List Char
  | .null => 'n' :: ['u', 'l', 'l']
  | .bool true => 't' :: ['r', 'u', 'e']
  | .bool false => 'f' :: ['a', 'l', 's', 'e']
  | .num n => intChars n
  | .str s => renderStr s
  | .arr es => '[' :: (renderItems es ++ [']'])
  | .obj ms => lbrace :: (renderPairs ms ++ [rbrace])

/-- Array body: items joined by `", "`. -/
def renderItems : List Json → List Char
  | [] => []
  | e :: es => render e ++ renderItemsTail es

/-- Separator-prefixed continuation of an array body. -/
def renderItemsTail : List Json → List Char
  | [] => []
  | e :: es => ',' :: ' ' :: (render e ++ renderItemsTail es)

/-- Object body: `"key": value` members joined by `", "`. -/
def renderPairs : List (String × Json) → List Char
  | [] => []
  | (k, v) :: ms => renderStr k ++ ':' :: ' ' :: (render v ++ renderPairsTail ms)

/-- Separator-prefixed continuation of an object body. -/
def renderPairsTail : List (String × Json) → List Char
  | [] => []
  | (k, v) :: ms =>
      ',' :: ' ' :: (renderStr k ++ ':' :: ' ' :: (render v ++ renderPairsTail ms))

end

/-- The strict serialization of a JSON value, as a string. -/
def serialize (j : Json) : String := String.mk (render j)

/-- The suffix of the text starting at the first left brace
(`text.find` followed by the slice, in `_extract_json`). -/
def fromFirstBrace : List Char → Option (List Char)
  | [] => none
  | c :: cs => if c = lbrace then some (c :: cs) else fromFirstBrace cs

/-- The string-aware depth scan of `_extract_json`: walk the text from the
first `\x7b`, tracking nesting depth, quoted strings and backslash escapes, and
return the first balanced `\x7b...\x7d` slice; `none` when the text ends with the
braces still open.  `acc` carries the consumed prefix reversed. -/
def braceSlice (acc : List Char) (depth : Nat) (inStr esc : Bool) :
    List Char → Option (List Char)
  | [] => none
  | c :: cs =>
    if inStr then
      if esc then braceSlice (c :: acc) depth true false cs
      else if c = '\\' then braceSlice (c :: acc) depth true true cs
      else if c = '"' then braceSlice (c :: acc) depth false false cs
      else braceSlice (c :: acc) depth true false cs
    else
      if c = '"' then braceSlice (c :: acc) depth true false cs
      else if c = lbrace then braceSlice (c :: acc) (depth + 1) false false cs
      else if c = rbrace then
        if depth = 1 then some (c :: acc).reverse
        else braceSlice (c :: acc) (depth - 1) false false cs
      else braceSlice (c :: acc) depth false false cs

/-- `_extract_json` of `ai_report/service.py` (lines 279-311): strict parse of
the whole text; else the first balanced brace slice, strictly parsed; one
failed candidate breaks the loop; every failure path returns the empty dict. -/
def extractJson (text : String) : Json :=
  match parseDoc text with
  | some v => v
  | none =>
    match fromFirstBrace text.toList with
    | none => .obj []
    | some tail =>
      match braceSlice [] 0 false false tail with
      | none => .obj []
      | some cand =>
          match parseDoc (String.mk cand) with
          | some v => v
          | none => .obj []


/-! ## Python values for the deterministic engine

The insight engine works over decoded widget payloads.  `Val` models a Python
value as the widget bundle carries it; numbers are modelled over `ℚ` (Python
`int`/`float` arithmetic idealised as exact rational arithmetic). -/

/-- A Python value inside a widget bundle or a report document. -/
inductive Val where
  | null
  | bool (b : Bool)
  | num (q : ℚ)
  | str (s : String)
  | arr (xs : List Val)
  | obj (kvs : List (String × Val))
deriving Repr, Inhabited

mutual

/-- Equality test on `Val`, as Python `==` compares decoded JSON values. -/
def Val.beq : Val → Val → Bool
  | .null, .null => true
  | .bool a, .bool b => a == b
  | .num a, .num b => a == b
  | .str a, .str b => a == b
  | .arr a, .arr b => Val.beqList a b
  | .obj a, .obj b => Val.beqPairs a b
  | _, _ => false

/-- Elementwise equality of value lists. -/
def Val.beqList : List Val → List Val → Bool
  | [], [] => true
  | a :: as', b :: bs => Val.beq a b && Val.beqList as' bs
  | _, _ => false

/-- Pairwise equality of key-value lists. -/
def Val.beqPairs : List (String × Val) → List (String × Val) → Bool
  | [], [] => true
  | (k, v) :: as', (k2, v2) :: bs => k == k2 && Val.beq v v2 && Val.beqPairs as' bs
  | _, _ => false

end

/-- Python truthiness of a value (`bool(v)`). -/
def truthy : Val → Bool
  | .null => false
  | .bool b => b
  | .num q => q != 0
  | .str s => s != ""
  | .arr xs => !xs.isEmpty
  | .obj kvs => !kvs.isEmpty

/-- A decoded JSON object / Python dict, in insertion order. -/
abbrev Row := List (String × Val)

/-- A widget bundle: widget key to decoded payload, in insertion order. -/
abbrev Bundle := List (String × Val)

/-- `d.get(k)`: the value under `k`, when present. -/
def pyGet (kvs : Row) (k : String) : Option Val :=
  (kvs.find? (fun kv => kv.1 == k)).map (·.2)

/-- `d.get(k, default)`. -/
def pyGetD (kvs : Row) (k : String) (dflt : Val) : Val :=
  (pyGet kvs k).getD dflt

/-- `d[k] = v` on a dict: overwrite in place, else append. -/
def pySet : Row → String → Val → Row
  | [], k, v => [(k, v)]
  | (k1, v1) :: t, k, v =>
      if k1 = k then (k1, v) :: t else (k1, v1) :: pySet t k v

/-- `d.setdefault(k, v)` (the resulting dict). -/
def pySetdefault (kvs : Row) (k : String) (v : Val) : Row :=
  if (pyGet kvs k).isSome then kvs else kvs ++ [(k, v)]

/-- `a or b` on two optional lookups, as Python evaluates it: the first value
when truthy, else the second value (or `None`). -/
def vOr (a b : Option Val) : Val :=
  let av := a.getD .null
  if truthy av then av else b.getD .null

/-- `a or b or default` for a lookup chain ending in a literal. -/
def vOrD (a b : Option Val) (dflt : Val) : Val :=
  let v := vOr a b
  if truthy v then v else dflt

/-- Lookup in a Python-keyed mapping (keys compared with `==`). -/
def vLookup (m : List (Val × ℚ)) (k : Val) : Option ℚ :=
  (m.find? (fun kv => Val.beq kv.1 k)).map (·.2)

/-- Assignment in a Python-keyed mapping: overwrite in place, else append. -/
def vStore : List (Val × ℚ) → Val → ℚ → List (Val × ℚ)
  | [], k, q => [(k, q)]
  | (k1, q1) :: t, k, q =>
      if Val.beq k1 k then (k1, q) :: t else (k1, q1) :: vStore t k q

/-- Assignment in a string-keyed mapping (used for `exit_index`). -/
def sStore {α : Type} : List (String × α) → String → α → List (String × α)
  | [], k, a => [(k, a)]
  | (k1, a1) :: t, k, a =>
      if k1 = k then (k1, a) :: t else (k1, a1) :: sStore t k a

/-- Truncation toward zero, as Python `int(float)` converts. -/
def pytrunc (q : ℚ) : Int := if q < 0 then ⌈q⌉ else ⌊q⌋

/-- Python `round(x)` to an integer, modelled half-up (CPython rounds the
binary float half-to-even; the difference only concerns exact ties). -/
def pyroundInt (q : ℚ) : Int := ⌊q + 1 / 2⌋

/-- Python `round(x, 2)`, modelled half-up at the second decimal. -/
def round2 (q : ℚ) : ℚ := (⌊q * 100 + 1 / 2⌋ : ℚ) / 100

/-- Tenths-rounding used by the `:.1f` format, modelled half-up. -/
def round1tenths (q : ℚ) : Int := ⌊q * 10 + 1 / 2⌋

/-- Leading run of an optionally signed decimal literal (`float(str)` body). -/
def parseFloatQ (s : String) : Option ℚ :=
  let cs := s.trim.toList
  let (neg, cs1) : Bool × List Char :=
    match cs with
    | '-' :: r => (true, r)
    | '+' :: r => (false, r)
    | _ => (false, cs)
  let (ip, cs2) := grabDigits cs1
  match cs2 with
  | '.' :: r =>
      let (fp, cs3) := grabDigits r
      if cs3.isEmpty && !(ip.isEmpty && fp.isEmpty) then
        some ((if neg then -1 else 1) *
          ((digitsVal ip : ℚ) + (digitsVal fp : ℚ) / ((10 : ℚ) ^ fp.length)))
      else none
  | [] => if ip.isEmpty then none else some ((if neg then -1 else 1) * (digitsVal ip : ℚ))
  | _ => none

/-- `int(str)`: an optionally signed run of digits only. -/
def parseIntStr (s : String) : Option Int :=
  let cs := s.trim.toList
  let (neg, cs1) : Bool × List Char :=
    match cs with
    | '-' :: r => (true, r)
    | '+' :: r => (false, r)
    | _ => (false, cs)
  let (ip, cs2) := grabDigits cs1
  if ip.isEmpty || !cs2.isEmpty then none
  else some ((if neg then -1 else 1) * (digitsVal ip : Int))

/-- `float(value)` on a bundle value, `none` when Python would raise.
(Exponent and `inf`/`nan` spellings are outside the embedded grammar.) -/
def pyFloat? : Val → Option ℚ
  | .num q => some q
  | .bool b => some (if b then 1 else 0)
  | .str s => parseFloatQ s
  | _ => none

/-- `_as_float(value, default=0.0)` of `ai_report/service.py`. -/
def asFloat (v : Val) : ℚ := (pyFloat? v).getD 0

/-- `int(value)` on a bundle value, `none` when Python would raise. -/
def pyInt? : Val → Option Int
  | .num q => some (pytrunc q)
  | .bool b => some (if b then 1 else 0)
  | .str s => parseIntStr s
  | _ => none

/-- `_as_int(value, default=0)` of `ai_report/service.py`. -/
def asInt (v : Val) : Int := (pyInt? v).getD 0

/-- `_safe_pct` of `ai_report/service.py` (lines 73-76): zero whenever the
denominator is not positive, else the percentage rounded to two decimals. -/
def safePct (part whole : ℚ) : ℚ :=
  if whole ≤ 0 then 0 else round2 (part / whole * 100)

/-- Mean of a rational list (`statistics.mean`; callers guard non-emptiness,
on `[]` this model returns 0). -/
def meanQ (l : List ℚ) : ℚ := l.sum / l.length

/-- Mean of an integer list as a rational. -/
def meanZ (l : List Int) : ℚ := meanQ (l.map (fun n => (n : ℚ)))

/-- Stable descending sort by a rational key (`list.sort(key=…, reverse=True)`).
`insertionSort` with the reflexive relation keeps the original order of ties,
as CPython's stable sort does. -/
def sortDescBy {α : Type} (key : α → ℚ) (l : List α) : List α :=
  List.insertionSort (fun a b => key b ≤ key a) l

/-- Ascending lexicographic sort of strings (`sorted(...)`). -/
def sortStrings (l : List String) : List String :=
  List.insertionSort (fun a b : String => a ≤ b) l

/-- Digit characters of a natural number. -/
def natDigitStr (n : Nat) : String := String.mk (natChars n [])

/-- `f"{q:.1f}"`: one decimal, sign taken from the rounded tenths. -/
def fmtQ1 (q : ℚ) : String :=
  let t := round1tenths q
  let a := t.natAbs
  (if t < 0 then "-" else "") ++ natDigitStr (a / 10) ++ "." ++ natDigitStr (a % 10)

/-- `f"{q:+.1f}"`: as `fmtQ1` with an explicit plus on non-negatives. -/
def fmtPlus1 (q : ℚ) : String :=
  let t := round1tenths q
  (if t < 0 then "" else "+") ++ fmtQ1 q

/-- `f"{q:.0f}"`: rounded to an integer, modelled half-up. -/
def fmtQ0 (q : ℚ) : String :=
  let t := pyroundInt q
  (if t < 0 then "-" else "") ++ natDigitStr t.natAbs

/-- `f"{n:,}"`: thousands separators. -/
def fmtComma (n : Int) : String :=
  let rec go : List Char → Nat → List Char
    | [], _ => []
    | c :: cs, k =>
        if k = 3 then c :: ',' :: go cs 0 else c :: go cs (k + 1)
  (if n < 0 then "-" else "") ++
    String.mk ((go (natChars n.natAbs []).reverse 1).reverse)

/-- `str(value)` as used in prose interpolation (scalar cases faithful;
containers, which never reach the templates, render as a placeholder). -/
def pyStr : Val → String
  | .str s => s
  | .null => "None"
  | .bool true => "True"
  | .bool false => "False"
  | .num q => if q.den = 1 then toString q.num else fmtQ1 q
  | .arr _ => "[...]"
  | .obj _ => "\x7b...\x7d"

/-- Numeric content of a value, zero otherwise (for values this model built
itself and knows to be numbers). -/
def vNum : Val → ℚ
  | .num q => q
  | _ => 0



/-! ## Row normalisation and scored signals (`InsightGenerator` helpers) -/

/-- A value that is a dict, as a row. -/
def asRow : Val → Option Row
  | .obj kvs => some kvs
  | _ => none

/-- Is the value a dict? -/
def isObjV : Val → Bool
  | .obj _ => true
  | _ => false

/-- First of `rows`/`data`/`items` whose value is a list (`_rows` step one). -/
def wrappedList (kvs : Row) : Option (List Val) :=
  match pyGet kvs "rows" with
  | some (.arr xs) => some xs
  | _ =>
    match pyGet kvs "data" with
    | some (.arr xs) => some xs
    | _ =>
      match pyGet kvs "items" with
      | some (.arr xs) => some xs
      | _ => none

/-- `_rows` of `ai_report/service.py` (lines 79-89): unwrap `rows`/`data`/
`items`, fall back to all-dict values, accept a bare list, keep dict rows. -/
def rowsOf : Val → List Row
  | .obj kvs =>
      match wrappedList kvs with
      | some xs => xs.filterMap asRow
      | none =>
          if kvs.all (fun kv => isObjV kv.2) then kvs.filterMap (fun kv => asRow kv.2)
          else []
  | .arr xs => xs.filterMap asRow
  | _ => []

/-- `_rows(bundle.get(key))`. -/
def rowsAt (bundle : Bundle) (key : String) : List Row :=
  match pyGet bundle key with
  | some v => rowsOf v
  | none => []

/-- `_first_row`: head row of the normalised payload, else the empty dict. -/
def firstRowOf (rows : List Row) : Row := rows.headD []

/-- `_pick` (lines 1077-1093): first key whose value converts to a float,
strings cleaned of commas and a trailing percent sign first. -/
def pick (row : Row) : List String → ℚ
  | [] => 0
  | k :: ks =>
    match pyGet row k with
    | none => pick row ks
    | some .null => pick row ks
    | some (.str s) =>
        let c1 := (s.trim.replace "," "")
        let c2 := if c1.endsWith "%" then c1.dropRight 1 else c1
        let c3 := if c2 = "" then "0" else c2
        match parseFloatQ c3 with
        | some q => q
        | none => pick row ks
    | some v =>
        match pyFloat? v with
        | some q => q
        | none => pick row ks

/-- `_percent` (lines 1095-1100): strip percent signs from strings, then
`_as_float`. -/
def percentOf : Option Val → ℚ
  | none => 0
  | some .null => 0
  | some (.str s) => asFloat (.str ((s.replace "%" "").trim))
  | some v => asFloat v

/-- The `_page_label` key scan (lines 1102-1107): first non-blank string
value among the given keys, trimmed. -/
def pageLabelAux (row : Row) : List String → String
  | [] => ""
  | k :: ks =>
    match pyGet row k with
    | some (.str s) => if s.trim ≠ "" then s.trim else pageLabelAux row ks
    | _ => pageLabelAux row ks

/-- `_page_label` over its fixed key order. -/
def pageLabel (row : Row) : String :=
  pageLabelAux row ["path", "page", "url", "title"]

/-- `_safe_label` (lines 1109-1114). -/
def safeLabel (row : Row) (keys : List String) (dflt : String) : String :=
  match keys with
  | [] => dflt
  | k :: ks =>
    match pyGet row k with
    | some (.str s) => if s.trim ≠ "" then s.trim else safeLabel row ks dflt
    | _ => safeLabel row ks dflt

/-- One entry of a share distribution. -/
structure DistItem where
  label : String
  value : Int
  share : ℚ
deriving Repr, Inhabited

/-- A share distribution: positive-count items, sorted by count descending. -/
structure Dist where
  total : Int
  items : List DistItem
deriving Repr, Inhabited

/-- `_distribution` (lines 1045-1058): keep rows with a positive count, sort
by count descending, attach `_safe_pct` shares of the total. -/
def distribution (rows : List Row) (labelKeys : List String) : Dist :=
  let raw := rows.filterMap (fun row =>
    let label := safeLabel row labelKeys "Unknown"
    let value := pytrunc (pick row ["sessions", "count", "value", "views"])
    if value ≤ 0 then none else some (label, value))
  let total : Int := (raw.map (·.2)).sum
  let sorted := sortDescBy (fun it => (it.2 : ℚ)) raw
  let items := sorted.map (fun it =>
    { label := it.1, value := it.2
      share := safePct (it.2 : ℚ) (((if total = 0 then 1 else total) : Int) : ℚ) })
  { total := total, items := items }

/-- Is the first list a prefix of the second? -/
def listPrefix : List Char → List Char → Bool
  | [], _ => true
  | _ :: _, [] => false
  | a :: as', b :: bs => a == b && listPrefix as' bs

/-- Substring containment, as Python `needle in haystack` tests it. -/
def listContains (s pat : List Char) : Bool :=
  match s with
  | [] => pat.isEmpty
  | _ :: t => listPrefix pat s || listContains t pat

/-- `_find_distribution_item` (lines 1116-1121): first item whose lowercased
label contains the keyword. -/
def findDistItem (d : Dist) (keyword : String) : Option DistItem :=
  d.items.find? (fun it =>
    listContains it.label.toLower.toList keyword.toLower.toList)

/-- One entry of the top-page summary. -/
structure PageItem where
  page : String
  views : Int
  share : ℚ
deriving Repr, Inhabited

/-- The top-page summary: capped page list plus the uncapped view total. -/
structure TopPages where
  items : List PageItem
  totalViews : Int
deriving Repr, Inhabited

/-- `_top_page_summary` (lines 1060-1075): labelled positive-view pages sorted
descending, top five kept, shares relative to the session total (or the view
sum, or 1). -/
def topPageSummary (topPageRows : List Row) (totalSessions : Int) : TopPages :=
  let pages := topPageRows.filterMap (fun row =>
    let page := pageLabel row
    if page = "" then none
    else
      let views := pytrunc (pick row ["views", "sessions", "count", "value"])
      if views ≤ 0 then none else some (page, views))
  let sorted := sortDescBy (fun it => (it.2 : ℚ)) pages
  let top := sorted.take 5
  let viewSum : Int := (pages.map (·.2)).sum
  let reference : Int :=
    if totalSessions ≠ 0 then totalSessions else if viewSum ≠ 0 then viewSum else 1
  { items := top.map (fun it =>
      { page := it.1, views := it.2, share := safePct (it.2 : ℚ) (reference : ℚ) })
    totalViews := viewSum }



/-! ## `InsightGenerator`: constructor-derived signals (lines 441-511) -/

/-- Constructor arguments of `InsightGenerator` (the prompt kept as its raw
string; `PromptContext.mentions` is never consulted by the build). -/
structure Ctx where
  bundle : Bundle
  fromIso : Option String
  toIso : Option String
  bucket : String
  siteId : Option String
  promptRaw : String

/-- `self.device_rows`. -/
def deviceRows (c : Ctx) : List Row := rowsAt c.bundle "device_share"

/-- `self.browser_rows`. -/
def browserRows (c : Ctx) : List Row := rowsAt c.bundle "browser_share"

/-- `self.daily_rows`. -/
def dailyRows (c : Ctx) : List Row := rowsAt c.bundle "daily_count"

/-- `self.top_pages`. -/
def topPagesRows (c : Ctx) : List Row := rowsAt c.bundle "top_pages"

/-- `self.exit_rows`. -/
def exitRows (c : Ctx) : List Row := rowsAt c.bundle "page_exit_rate"

/-- `self.dwell_rows`. -/
def dwellRows (c : Ctx) : List Row := rowsAt c.bundle "dwell_time"

/-- `self.top_buttons_global`. -/
def topButtonsGlobal (c : Ctx) : List Row := rowsAt c.bundle "top_buttons_global"

/-- `self.top_buttons_by_path`. -/
def topButtonsByPath (c : Ctx) : List Row := rowsAt c.bundle "top_buttons_by_path"

/-- `self.heatmap_sample = _first_row(self.top_buttons_by_path)`. -/
def heatmapSample (c : Ctx) : Row := firstRowOf (topButtonsByPath c)

/-- `self.dwell_map`: path-or-page key to `_as_float` dwell, later entries
overwriting earlier ones as the dict comprehension does. -/
def dwellMap (c : Ctx) : List (Val × ℚ) :=
  (dwellRows c).foldl (fun m row =>
    let key := vOr (pyGet row "path") (pyGet row "page")
    if truthy key then
      vStore m key (asFloat (vOr (pyGet row "avg_seconds") (pyGet row "avg")))
    else m) []

/-- `self.device_distribution`. -/
def deviceDistribution (c : Ctx) : Dist :=
  distribution (deviceRows c) ["device", "type", "name"]

/-- `self.browser_distribution`. -/
def browserDistribution (c : Ctx) : Dist :=
  distribution (browserRows c) ["browser", "name"]

/-- `self.total_sessions`: the device total, or the summed daily counts. -/
def totalSessions (c : Ctx) : Int :=
  let t := (deviceDistribution c).total
  if t ≠ 0 then t
  else ((dailyRows c).filterMap (fun row =>
    match pyGet row "cnt" with
    | some .null => none
    | some v => some (asInt v)
    | none => none)).sum

/-- `self.top_page_summary`. -/
def topPageSummaryC (c : Ctx) : TopPages :=
  topPageSummary (topPagesRows c) (totalSessions c)

/-- The `exit_index` record for one exit row. -/
structure ExitInfo where
  exitRate : ℚ
  views : Int
  exits : Int
deriving Repr, Inhabited

/-- The `exit_index` build loop (lines 485-497): path-labelled rows enter the
index (later rows overwriting), and every labelled row's rate enters the list
that feeds the average. -/
def exitScan (c : Ctx) : List (String × ExitInfo) × List ℚ :=
  (exitRows c).foldl (fun (acc : List (String × ExitInfo) × List ℚ) row =>
    let path := pageLabel row
    if path = "" then acc
    else
      let er := percentOf (pyGet row "exit_rate")
      (sStore acc.1 path
        { exitRate := er
          views := pytrunc (pick row ["views", "sessions", "count", "value"])
          exits := pytrunc (pick row ["exits", "exit_count"]) },
       acc.2 ++ [er])) ([], [])

/-- `self.exit_index`. -/
def exitIndex (c : Ctx) : List (String × ExitInfo) := (exitScan c).1

/-- `self.avg_exit_rate`. -/
def avgExitRate (c : Ctx) : ℚ :=
  let rates := (exitScan c).2
  if rates.isEmpty then 0 else meanQ rates

/-- `self.avg_dwell`. -/
def avgDwell (c : Ctx) : ℚ :=
  let m := dwellMap c
  if m.isEmpty then 0 else meanQ (m.map (·.2))

/-- `self.daily_series`. -/
def dailySeries (c : Ctx) : List Int :=
  (dailyRows c).filterMap (fun row =>
    match pyGet row "cnt" with
    | some .null => none
    | some v => some (asInt v)
    | none => none)

/-- `self.button_sorted`: positive-click rows, sorted descending by clicks. -/
def buttonSorted (c : Ctx) : List Row :=
  sortDescBy (fun row => pick row ["count", "clicks", "value"])
    ((topButtonsGlobal c).filter (fun row => 0 < pick row ["count", "clicks", "value"]))

/-- `self.button_leader`. -/
def buttonLeader (c : Ctx) : Option Row := (buttonSorted c).head?

/-- `self.button_tail` (only when more than one button). -/
def buttonTail (c : Ctx) : Option Row :=
  if 1 < (buttonSorted c).length then (buttonSorted c).getLast? else none

/-- `self.total_clicks`. -/
def totalClicks (c : Ctx) : Int :=
  ((topButtonsGlobal c).map (fun row => pytrunc (pick row ["count", "clicks", "value"]))).sum

/-- `self.click_rate_pct`. -/
def clickRatePct (c : Ctx) : ℚ :=
  safePct (totalClicks c : ℚ)
    (((if totalSessions c = 0 then 1 else totalSessions c) : Int) : ℚ)



/-! ## `InsightGenerator` report sections (lines 513-1043)

Prose templates are reproduced with the numeric formatting helpers above;
where Python would `str()` a non-string widget value inside a template (or
index a non-dict hotspot entry, which would raise `AttributeError` there),
this model degrades to a placeholder/empty row, a corner no claim touches. -/

/-- Value lookup inside a dict-shaped `Val`. -/
def objGet (v : Val) (k : String) : Option Val :=
  match v with
  | .obj kvs => pyGet kvs k
  | _ => none

/-- `v.get(k, default)` read as a number. -/
def objNumD (v : Val) (k : String) (d : ℚ) : ℚ :=
  match objGet v k with
  | some w => vNum w
  | none => d

/-- `v.get(k, default)` rendered into a template. -/
def objStrD (v : Val) (k : String) (d : String) : String :=
  match objGet v k with
  | some w => pyStr w
  | none => d

/-- `_traffic_trend` (lines 567-604). -/
def trafficTrend (c : Ctx) : Val :=
  let values := dailySeries c
  match values with
  | [] => .obj [("label", .str "unknown")]
  | v0 :: _ =>
    let first := v0
    let last := values.getLastD v0
    let change := last - first
    let changePct := safePct (change : ℚ) (((if first = 0 then 1 else first) : Int) : ℚ)
    let half := max 1 (values.length / 2)
    let early := meanZ (values.take half)
    let late := meanZ (values.drop (values.length - half))
    let momentum := safePct (late - early) (if early = 0 then 1 else early)
    let label :=
      if (6 : ℚ) ≤ changePct then "rising"
      else if changePct ≤ -6 then "falling"
      else "flat"
    let tp := (topPageSummaryC c).items
    let topPages := tp.map (fun it =>
      Val.obj [("page", .str it.page), ("share", .num it.share), ("views", .num (it.views : ℚ))])
    let topShare := round2 ((tp.map (·.share)).sum)
    .obj
      [("label", .str label), ("first", .num (first : ℚ)), ("last", .num (last : ℚ)),
       ("change", .num (change : ℚ)), ("change_pct", .num (round2 changePct)),
       ("momentum_pct", .num (round2 momentum)), ("average", .num (round2 (meanZ values))),
       ("days", .num (values.length : ℚ)), ("top_pages", .arr topPages),
       ("top_share", .num topShare)]

/-- The first hotspot row of the heatmap sample's
`hotspots`-or-`elements` list, with the list itself. -/
def heatmapHotspots (c : Ctx) : List Val :=
  match vOr (pyGet (heatmapSample c) "hotspots") (pyGet (heatmapSample c) "elements") with
  | .arr xs => xs
  | _ => []

/-- One scored `page_issues` entry (lines 611-650). -/
def pageIssueEntry (c : Ctx) (path : String) (info : ExitInfo) : ℚ × Val :=
  let exitRate := info.exitRate
  let dwell := (vLookup (dwellMap c) (.str path)).getD 0
  let dwellText := if dwell ≠ 0 then fmtQ0 dwell ++ "s" else "-"
  let exitText := fmtQ1 exitRate ++ "%"
  let dwellGap := dwell - avgDwell c
  let score := exitRate - avgExitRate c - dwellGap * (1 / 4)
  let bit1 :=
    if 0 < dwell ∧ dwellGap < 0 then
      "Visitors bounce before consuming half of the content."
    else if 6 < dwellGap then
      "People linger but still exit, which signals a missing or unclear CTA."
    else
      "Scroll depth stalls near the fold and users never reach the CTA."
  let bit2 :=
    fmtComma info.exits ++ " of " ++ fmtComma info.views ++
      " tracked sessions exit on this screen."
  let heatBits :=
    if Val.beq ((pyGet (heatmapSample c) "path").getD .null) (.str path) then
      match heatmapHotspots c with
      | [] => []
      | h0 :: _ =>
          let focus := vOrD (objGet h0 "text") (objGet h0 "selector")
            (.str "non-CTA elements")
          ["Heatmap focus drifts to " ++ pyStr focus ++ "."]
    else []
  let insight := String.intercalate " " ([bit1, bit2] ++ heatBits)
  (score,
   .obj
     [("page", .str path),
      ("issue", .str (path ++ " - dwell " ++ dwellText ++ " / exit " ++ exitText)),
      ("dwell_time", .str dwellText), ("exit_rate", .str exitText),
      ("insight", .str insight), ("widget", .str "page_exit_rate|dwell_time")])

/-- `_page_issues` (lines 606-653): scored entries sorted descending, top 4. -/
def pageIssues (c : Ctx) : List Val :=
  if (exitIndex c).isEmpty then []
  else
    let scored := (exitIndex c).map (fun pi => pageIssueEntry c pi.1 pi.2)
    ((sortDescBy (·.1) scored).take 4).map (·.2)

/-- `_interaction_insights` (lines 655-705). -/
def interactionInsights (c : Ctx) : List Val :=
  let leaderPart :=
    match buttonLeader c with
    | none => []
    | some leader =>
      if totalClicks c ≠ 0 then
        let leaderLabel :=
          safeLabel leader ["element_text", "text", "label", "selector", "id"] "Primary CTA"
        let leaderClicks := pytrunc (pick leader ["count", "clicks", "value"])
        let leaderShare := safePct (leaderClicks : ℚ)
          (((if totalClicks c = 0 then 1 else totalClicks c) : Int) : ℚ)
        let first : Val := .obj
          [("area", .str ("Global CTA - " ++ leaderLabel)),
           ("insight", .str (fmtQ1 leaderShare ++ "% of " ++ fmtComma (totalClicks c) ++
             " clicks land on " ++ leaderLabel ++
             ", so funnel health depends on a single surface.")),
           ("action", .str ("Mirror this CTA above the fold on high-exit pages and " ++
             "keep label/colour consistent across devices.")),
           ("widget", .str "top_buttons_global")]
        let tailPart :=
          match buttonTail c with
          | none => []
          | some tail =>
            let tailLabel :=
              safeLabel tail ["element_text", "text", "label", "selector", "id"] "Secondary CTA"
            let tailClicks := pytrunc (pick tail ["count", "clicks", "value"])
            if tailClicks ≠ 0 then
              let tailShare := safePct (tailClicks : ℚ)
                (((if totalClicks c = 0 then 1 else totalClicks c) : Int) : ℚ)
              [Val.obj
                [("area", .str ("Under-used CTA - " ++ tailLabel)),
                 ("insight", .str (tailLabel ++ " attracts only " ++ fmtQ1 tailShare ++
                   "% (" ++ fmtComma tailClicks ++
                   ") of clicks, so intent leaks before the next step.")),
                 ("action", .str ("Raise the CTA above the fold on mobile and test a " ++
                   "contrasting colour to capture intent.")),
                 ("widget", .str "top_buttons_global")]]
            else []
        first :: tailPart
      else []
  let heatPart :=
    let heatmapPath := vOr (pyGet (heatmapSample c) "path") (pyGet (heatmapSample c) "page")
    if truthy heatmapPath then
      let hotspots := heatmapHotspots c
      let hotspotCount := hotspots.length
      let focal : Val :=
        match hotspots with
        | [] => .str ""
        | h0 :: _ => vOrD (objGet h0 "text") (objGet h0 "selector") (.str "")
      [Val.obj
        [("area", .str ("Heatmap - " ++ pyStr heatmapPath)),
         ("insight", .str (toString (if hotspotCount = 0 then 3 else hotspotCount) ++
           " hotspots absorb attention but users focus on " ++
           (if truthy focal then pyStr focal else "non-CTA zones") ++ ".")),
         ("action", .str ("Align the primary CTA with these hotspots and trim " ++
           "decorative blocks that compete for clicks.")),
         ("widget", .str "top_buttons_by_path")]]
    else []
  leaderPart ++ heatPart

/-- `_diagnostics` (lines 707-773). -/
def diagnostics (c : Ctx) (trend : Val) (pageIssuesL : List Val) : List Val :=
  let devicePart :=
    match (deviceDistribution c).items with
    | [] => []
    | h :: t =>
      let tl := (h :: t).getLastD h
      let gap := h.share - tl.share
      let context :=
        match pageIssuesL with
        | [] => none
        | issue0 :: _ =>
          some (objStrD issue0 "page" "" ++ " dwells " ++ objStrD issue0 "dwell_time" "-" ++
            "/exit " ++ objStrD issue0 "exit_rate" "-")
      [Val.obj
        [("focus", .str (tl.label ++ " traffic")),
         ("finding", .str (tl.label ++ " represents only " ++ fmtQ1 tl.share ++ "% vs " ++
           h.label ++ " " ++ fmtQ1 h.share ++ "% (+" ++ fmtQ1 gap ++ "pp gap).")),
         ("widget", .str "device_share|page_exit_rate"),
         ("severity", .str (if tl.share ≤ 25 then "High" else "Medium")),
         ("share", .str (fmtQ1 tl.share ++ "%")),
         ("insight", .str (context.getD
           "Audit this device viewport for layout or performance regressions."))]]
  let browserPart :=
    match (browserDistribution c).items with
    | [] => []
    | h :: t =>
      let tl := (h :: t).getLastD h
      [Val.obj
        [("focus", .str (tl.label ++ " sessions")),
         ("finding", .str (tl.label ++ " owns " ++ fmtQ1 tl.share ++ "% of traffic while " ++
           h.label ++ " dominates; CSS/support gaps likely hold exits high.")),
         ("widget", .str "browser_share"),
         ("severity", .str (if tl.share ≤ 15 then "Medium" else "Low")),
         ("share", .str (fmtQ1 tl.share ++ "%")),
         ("insight", .str "Verify sticky headers, fonts, and analytics beacons on this browser.")]]
  let trendPart :=
    if truthy ((objGet trend "label").getD .null) then
      let label := objStrD trend "label" ""
      let severity :=
        if label = "falling" then "High" else if label = "flat" then "Medium" else "Low"
      let topPages :=
        match objGet trend "top_pages" with
        | some (.arr xs) => if xs.isEmpty then [] else xs
        | _ => []
      let topNames := String.intercalate ", "
        ((topPages.take 3).map (fun it => objStrD it "page" ""))
      [Val.obj
        [("focus", .str "Traffic momentum"),
         ("finding", .str ("Daily logs are " ++ label ++ " (" ++
           fmtPlus1 (objNumD trend "change_pct" 0) ++ "%) and top five pages already represent " ++
           fmtQ1 (objNumD trend "top_share" 0) ++ "% (" ++ topNames ++ ").")),
         ("widget", .str "daily_count|top_pages"),
         ("severity", .str severity),
         ("insight", .str ("Volume is concentrated, so any outage on these URLs will " ++
           "immediately hit acquisition."))]]
    else []
  let ctaPart :=
    match buttonLeader c, buttonTail c with
    | some leader, some tail =>
      if totalClicks c ≠ 0 then
        let leaderClicks := pytrunc (pick leader ["count", "clicks", "value"])
        let tailClicks := pytrunc (pick tail ["count", "clicks", "value"])
        let leaderShare := safePct (leaderClicks : ℚ)
          (((if totalClicks c = 0 then 1 else totalClicks c) : Int) : ℚ)
        let tailShare :=
          if tailClicks ≠ 0 then
            safePct (tailClicks : ℚ)
              (((if totalClicks c = 0 then 1 else totalClicks c) : Int) : ℚ)
          else 0
        [Val.obj
          [("focus", .str "CTA engagement"),
           ("finding", .str ("The top CTA captures " ++ fmtQ1 leaderShare ++
             "% of clicks while the weakest sees " ++ fmtQ1 tailShare ++ "%.")),
           ("widget", .str "top_buttons_global|top_buttons_by_path"),
           ("severity", .str "Medium"),
           ("share", .str (fmtQ1 leaderShare ++ "% vs " ++ fmtQ1 tailShare ++ "%")),
           ("insight", .str ("Duplicate the winning CTA earlier in the journey to " ++
             "reduce dependency on a single fold."))]]
      else []
    | _, _ => []
  devicePart ++ browserPart ++ trendPart ++ ctaPart



/-- `mobile_share`-style fallback: the keyword item's share, else the leading
item's share, else zero (lines 812-815 and 996-997). -/
def keywordShare (d : Dist) (keyword : String) : ℚ :=
  match findDistItem d keyword with
  | some it => it.share
  | none =>
    match d.items with
    | [] => 0
    | h :: _ => h.share

/-- `_recommendations` (lines 775-832): the UX list and the tech list. -/
def recommendations (c : Ctx) (pageIssuesL : List Val) (trend : Val)
    (interactions : List Val) : List Val × List Val :=
  let uxWorst :=
    match pageIssuesL with
    | [] => []
    | worst :: _ =>
      [Val.obj
        [("category", .str "Checkout clarity"),
         ("suggestion", .str ("Compress above-the-fold copy on " ++ objStrD worst "page" "" ++
           " and pin the payment CTA directly under the delivery summary.")),
         ("rationale", .str ("Dwell " ++ objStrD worst "dwell_time" "-" ++ " with exits " ++
           objStrD worst "exit_rate" "-" ++ " shows users never reach the CTA.")),
         ("validation", .str "page_exit_rate + dwell_time trends")]]
  let heatmapPath := vOr (pyGet (heatmapSample c) "path") (pyGet (heatmapSample c) "page")
  let uxHeat :=
    if truthy heatmapPath then
      [Val.obj
        [("category", .str "Heatmap alignment"),
         ("suggestion", .str ("Move the primary CTA into the hotspot on " ++
           pyStr heatmapPath ++ " and hide decorative modules that steal clicks.")),
         ("rationale", .str "Heatmap hotspots concentrate away from the intended CTA."),
         ("validation", .str "top_buttons_by_path heatmap + session replay")]]
    else []
  let uxCta :=
    if (buttonLeader c).isSome && !interactions.isEmpty then
      [Val.obj
        [("category", .str "CTA hierarchy"),
         ("suggestion", .str ("Duplicate the high-performing CTA on mid-funnel screens " ++
           "and retire low-performing buttons.")),
         ("rationale", .str ("One CTA controls most clicks, so distributing it earlier " ++
           "reduces dependence on a single scroll depth.")),
         ("validation", .str "top_buttons_global before/after comparison")]]
    else []
  let mobileShare := keywordShare (deviceDistribution c) "mobile"
  let chromeShare := keywordShare (browserDistribution c) "chrome"
  let tech :=
    [Val.obj
      [("category", .str "Mobile Chrome performance"),
       ("suggestion", .str ("Inline the first 50KB of CSS, preload fonts, and lazy-load " ++
         "heatmap scripts only after First Contentful Paint.")),
       ("rationale", .str ("Mobile traffic is " ++ fmtQ1 mobileShare ++ "% and Chrome covers " ++
         fmtQ1 chromeShare ++ "% of sessions; load-time debt there drives exits.")),
       ("validation", .str "device_share + browser_share + synthetic LCP trace")],
     Val.obj
      [("category", .str "Landing page caching"),
       ("suggestion", .str ("Edge-cache the top five entry pages and prefetch API payloads " ++
         "to stabilise daily sessions.")),
       ("rationale", .str ("Trend is " ++ objStrD trend "label" "unknown" ++ " (" ++
         fmtPlus1 (objNumD trend "change_pct" 0) ++
         "%), so shaving TTFB is the fastest lever.")),
       ("validation", .str "top_pages + daily_count watchlist")]]
  (uxWorst ++ uxHeat ++ uxCta, tech)

/-- `_priorities` (lines 834-883). -/
def priorities (c : Ctx) (pageIssuesL : List Val) (trend : Val) : List Val :=
  let worstPart :=
    match pageIssuesL with
    | [] => []
    | worst :: _ =>
      let baseline := percentOf (objGet worst "exit_rate")
      let target := max 0 (baseline - 12)
      [Val.obj
        [("title", .str ("Reduce exits on " ++ objStrD worst "page" "")),
         ("priority", .str "High"),
         ("impact", .str ("Cutting exits from " ++ fmtQ1 baseline ++ "% to " ++ fmtQ1 target ++
           "% should recover ~6%p of the checkout funnel.")),
         ("effort", .str "Medium"),
         ("expected_metric_change", .obj
           [("metric", .str "page_exit_rate"), ("baseline", .num (round2 baseline)),
            ("target", .str (fmtQ1 target ++ "%")), ("period", .str "14d")]),
         ("business_outcome", .str "Projected +5-7%p conversion lift on checkout.")]]
  let mobilePart :=
    let mobile := findDistItem (deviceDistribution c) "mobile"
    if mobile.isSome || !(deviceDistribution c).items.isEmpty then
      let share :=
        match mobile with
        | some it => it.share
        | none =>
          match (deviceDistribution c).items with
          | [] => 0
          | h :: _ => h.share
      [Val.obj
        [("title", .str "Stabilise mobile Chrome load time"),
         ("priority", .str (if (30 : ℚ) ≤ share then "High" else "Medium")),
         ("impact", .str (fmtQ1 share ++ "% of traffic sits on this segment; reducing LCP " ++
           "by 1s lifts overall conversions ~4%p.")),
         ("effort", .str "Medium"),
         ("expected_metric_change", .obj
           [("metric", .str "device_share"), ("target", .str "+4%p"), ("period", .str "21d")]),
         ("business_outcome", .str "More stable mobile experience and reduced bounce.")]]
    else []
  let trendPart :=
    let label := objStrD trend "label" ""
    if label = "falling" ∨ label = "flat" then
      [Val.obj
        [("title", .str "Re-ignite acquisition"),
         ("priority", .str (if label = "flat" then "Medium" else "High")),
         ("impact", .str ("Top pages already cover " ++ fmtQ1 (objNumD trend "top_share" 0) ++
           "% of traffic; broadening campaigns can add ~8% volume.")),
         ("effort", .str "Medium"),
         ("expected_metric_change", .obj
           [("metric", .str "daily_count"), ("target", .str "+12%"), ("period", .str "21d")]),
         ("business_outcome", .str "Keeps weekly lead targets on track.")]]
    else []
  worstPart ++ mobilePart ++ trendPart

/-- `_metrics_to_track` (lines 885-932). -/
def metricsToTrack (pageIssuesL : List Val) : List Val :=
  let worstPart :=
    match pageIssuesL with
    | [] => []
    | worst :: _ =>
      [Val.obj
        [("metric", .str (objStrD worst "page" "" ++ " exit rate")),
         ("widget", .str "page_exit_rate"),
         ("reason", .str "Confirms whether the redesigned CTA reduces abandonment."),
         ("target_change", .str "-10pp"), ("timeframe", .str "14d")],
       Val.obj
        [("metric", .str (objStrD worst "page" "" ++ " dwell time")),
         ("widget", .str "dwell_time"),
         ("reason", .str "Longer dwell (>20s) proves the new layout keeps users engaged."),
         ("target_change", .str "+15%"), ("timeframe", .str "14d")]]
  worstPart ++
    [Val.obj
      [("metric", .str "Mobile share stability"), ("widget", .str "device_share"),
       ("reason", .str "Ensures mobile fixes recover at least +5pp share."),
       ("timeframe", .str "21d")],
     Val.obj
      [("metric", .str "Browser distribution health"), ("widget", .str "browser_share"),
       ("reason", .str "Safari/Edge gaps will expose CSS or tracking regressions."),
       ("timeframe", .str "21d")],
     Val.obj
      [("metric", .str "CTA click-through"), ("widget", .str "top_buttons_global"),
       ("reason", .str "Validates whether duplicated CTAs capture +3pp clicks."),
       ("target_change", .str "+3pp"), ("timeframe", .str "14d")]]

/-- `_predictions` (lines 934-984). -/
def predictions (c : Ctx) (pageIssuesL : List Val) (trend : Val) : List Val :=
  let worstPart :=
    match pageIssuesL with
    | [] => []
    | worst :: _ =>
      let baseline := percentOf (objGet worst "exit_rate")
      let clickBase := if clickRatePct c = 0 then (5 : ℚ) else clickRatePct c
      let conversionBaseline := max (1 / 2) ((100 - baseline) * max clickBase 3 / 100)
      let conversionExpected := round2 (conversionBaseline * 1.12)
      let expectedExit := round2 (max 0 (baseline - max 8 (baseline * 0.12)))
      [Val.obj
        [("metric", .str "Checkout conversion rate"),
         ("baseline", .num (round2 conversionBaseline)),
         ("expected", .num conversionExpected), ("unit", .str "%"),
         ("narrative", .str ("Assumes " ++ objStrD worst "page" "" ++
           " exits drop by ~12pp after the layout fix."))],
       Val.obj
        [("metric", .str (objStrD worst "page" "" ++ " exit rate")),
         ("baseline", .num (round2 baseline)), ("expected", .num expectedExit),
         ("unit", .str "%"),
         ("narrative", .str "Sticky CTA + reduced form friction should cut abandonment.")]]
  let trendPart :=
    match objGet trend "last" with
    | none => []
    | some .null => []
    | some lastV =>
      let baseline : Val :=
        if truthy lastV then lastV
        else if truthy ((objGet trend "average").getD .null) then
          (objGet trend "average").getD .null
        else .num 0
      let expected := pyroundInt (vNum baseline * 1.08 + 5)
      [Val.obj
        [("metric", .str "Daily sessions"), ("baseline", baseline),
         ("expected", .num (expected : ℚ)), ("unit", .str "sessions"),
         ("narrative", .str "Edge caching plus campaign refresh is expected to add 8% volume.")]]
  let clickPart :=
    if totalSessions c ≠ 0 then
      let baseline := round2 (clickRatePct c)
      let expected := round2 (min 100 (baseline + 3.5))
      [Val.obj
        [("metric", .str "CTA click share"), ("baseline", .num baseline),
         ("expected", .num expected), ("unit", .str "%"),
         ("narrative", .str "Duplicating the hero CTA should capture at least +3pp clicks.")]]
    else []
  worstPart ++ trendPart ++ clickPart

/-- The radar clamp (lines 1001-1002): two-decimal rounding, clamped into
`[20, 95]`, truncated to an integer. -/
def radarClamp (v : ℚ) : Int := pytrunc (max 20 (min 95 (round2 v)))

/-- `_radar_scores` (lines 986-1019): the five fixed axes in order, each with
its closed-form score and commentary. -/
def radarScores (c : Ctx) (pageIssuesL : List Val) (trend : Val)
    (missingCount : Nat) : List Val :=
  let topExit :=
    match pageIssuesL with
    | [] => avgExitRate c
    | issue0 :: _ => percentOf (objGet issue0 "exit_rate")
  let dwell := avgDwell c
  let mobileShare := keywordShare (deviceDistribution c) "mobile"
  let trendChange := objNumD trend "change_pct" 0
  let topShare := objNumD trend "top_share" 0
  let nPages := (topPageSummaryC c).items.length
  let performance := radarClamp (82 - max 0 (topExit - 45) * 0.6 - max 0 (40 - mobileShare) * 0.4)
  let experience := radarClamp (60 + min 18 (dwell - 20) - max 0 (topExit - 60) * 0.5)
  let growth := radarClamp (55 + trendChange * 0.8 - max 0 (topShare - 70) * 0.4)
  let search := radarClamp (60 - max 0 (topShare - 75) * 0.4 + min 10 ((nPages : ℚ) * 1.5))
  let stability := radarClamp (72 - (missingCount : ℚ) * 8 + min 6 ((dailyRows c).length : ℚ))
  let axes : List (String × Int × String) :=
    [("performance", performance,
      "Mobile share " ++ fmtQ1 mobileShare ++ "% and exits " ++ fmtQ1 topExit ++
        "% drive the score."),
     ("experience", experience,
      "Avg dwell " ++ fmtQ0 dwell ++ "s; still limited by high exit pages."),
     ("growth", growth,
      "Traffic trend " ++ fmtPlus1 trendChange ++ "% with top pages covering " ++
        fmtQ1 topShare ++ "% of inflow."),
     ("search", search,
      "Acquisition leans on " ++ toString nPages ++ " URLs; diversify keywords."),
     ("stability", stability,
      if missingCount ≠ 0 then "Monitoring gaps" else "All required widgets responding")]
  axes.map (fun a =>
    Val.obj [("axis", .str a.1), ("score", .num (a.2.1 : ℚ)), ("commentary", .str a.2.2)])

/-- `_summary_text` (lines 1021-1043). -/
def summaryText (c : Ctx) (diagnosticsL : List Val) (pageIssuesL : List Val)
    (trend : Val) : String :=
  let label := objStrD trend "label" ""
  let l1 :=
    if truthy ((objGet trend "label").getD .null) ∧ label ≠ "unknown" then
      ["Traffic is " ++ label ++ " (" ++ fmtPlus1 (objNumD trend "change_pct" 0) ++
        "%) across " ++ fmtQ0 (objNumD trend "days" 0) ++
        " days while the top five pages already account for " ++
        fmtQ1 (objNumD trend "top_share" 0) ++ "% of sessions."]
    else []
  let l2 :=
    if diagnosticsL.isEmpty then []
    else
      [String.intercalate " | " ((diagnosticsL.take 2).map (fun diag =>
        objStrD diag "focus" "" ++ ": " ++ objStrD diag "finding" ""))]
  let l3 :=
    match pageIssuesL with
    | [] => []
    | worst :: _ =>
      [objStrD worst "page" "" ++ " keeps users for " ++ objStrD worst "dwell_time" "-" ++
        " but still loses " ++ objStrD worst "exit_rate" "-" ++
        " of traffic - fix this screen first."]
  let l4 :=
    if clickRatePct c ≠ 0 then
      ["Global CTA click-through is " ++ fmtQ1 (clickRatePct c) ++
        "%, so duplicating the winning CTA is the fastest uplift."]
    else []
  let l5 :=
    if c.promptRaw.trim ≠ "" then
      ["Custom request \"" ++ c.promptRaw.trim ++ "\" has been incorporated into the action plan."]
    else []
  let lines := l1 ++ l2 ++ l3 ++ l4 ++ l5
  let joined := String.intercalate " " lines
  if joined = "" then
    "Widget data is missing; please rerun the report after the queries respond."
  else joined

/-- The `required_sources` table of `build` (lines 523-531). -/
def requiredSources (c : Ctx) : List (String × List Row) :=
  [("device_share", deviceRows c), ("browser_share", browserRows c),
   ("daily_count", dailyRows c), ("page_exit_rate", exitRows c),
   ("dwell_time", dwellRows c), ("top_buttons_global", topButtonsGlobal c),
   ("top_buttons_by_path", topButtonsByPath c)]

/-- `missing_widgets`: sorted keys of empty required sources. -/
def missingWidgets (c : Ctx) : List String :=
  sortStrings ((requiredSources c).filterMap (fun p =>
    if p.2.isEmpty then some p.1 else none))

/-- An optional string as a bundle value (`None` when absent). -/
def optStr : Option String → Val
  | none => .null
  | some s => .str s

/-- The `meta` mapping of `build` (lines 537-549). -/
def buildMeta (c : Ctx) (trend : Val) : Val :=
  .obj
    [("mode", .str "deterministic"), ("provider", .str "insight-engine"),
     ("model", .str "deterministic-v2"), ("prompt", .str c.promptRaw),
     ("time", .obj
       [("from", optStr c.fromIso), ("to", optStr c.toIso), ("bucket", .str c.bucket)]),
     ("site_id", optStr c.siteId),
     ("widgets", .arr ((sortStrings ((c.bundle.map (·.1)).filter
        (fun k => !k.startsWith "_"))).map Val.str)),
     ("missing_widgets", .arr ((missingWidgets c).map Val.str)),
     ("trend", trend),
     ("focus_pages", .arr (((topPageSummaryC c).items.map (·.page)).map Val.str)),
     ("button_sample_path", (pyGet (heatmapSample c) "path").getD .null)]

/-- `InsightGenerator.build` (lines 513-565): the deterministic report, with
the generation instant passed in for `_now_iso`. -/
def build (c : Ctx) (nowIso : String) : Val :=
  let trend := trafficTrend c
  let pageIssuesL := pageIssues c
  let interactions := interactionInsights c
  let diagnosticsL := diagnostics c trend pageIssuesL
  let recs := recommendations c pageIssuesL trend interactions
  let prioritiesL := priorities c pageIssuesL trend
  let metrics := metricsToTrack pageIssuesL
  let predictionsL := predictions c pageIssuesL trend
  let radar := radarScores c pageIssuesL trend (missingWidgets c).length
  let summary := summaryText c diagnosticsL pageIssuesL trend
  .obj
    [("generated_at", .str nowIso),
     ("title", .str "AI Traffic Diagnosis & Action Report"),
     ("summary", .str summary),
     ("diagnostics", .arr diagnosticsL),
     ("page_issues", .arr pageIssuesL),
     ("interaction_insights", .arr interactions),
     ("ux_recommendations", .arr recs.1),
     ("tech_recommendations", .arr recs.2),
     ("priorities", .arr prioritiesL),
     ("metrics_to_track", .arr metrics),
     ("predictions", .arr predictionsL),
     ("radar_scores", .arr radar),
     ("meta", buildMeta c trend)]



/-! ## `generate_report` (lines 1123-1216)

Network effects become oracle parameters: widget collection is an
`Except`-valued input (`_collect_widget_data` either yields a bundle or
raises), and each model backend is a function from the chat messages to an
`Except`-valued response.  Python exception flow inside the function becomes
the `Except` monad; a `.error` result of the embedded function would mean an
exception escaping `generate_report` to its caller. -/

mutual

/-- `json.dumps(..., ensure_ascii=False)` over bundle values (float `repr`
approximated at one decimal; only ever used opaquely inside prompt text). -/
def dumpsVal : Val → String
  | .null => "null"
  | .bool true => "true"
  | .bool false => "false"
  | .num q => if q.den = 1 then toString q.num else fmtQ1 q
  | .str s => String.mk (renderStr s)
  | .arr xs => "[" ++ dumpsList xs ++ "]"
  | .obj kvs => "\x7b" ++ dumpsPairs kvs ++ "\x7d"

/-- Comma-joined array elements. -/
def dumpsList : List Val → String
  | [] => ""
  | [x] => dumpsVal x
  | x :: xs => dumpsVal x ++ ", " ++ dumpsList xs

/-- Comma-joined object members. -/
def dumpsPairs : List (String × Val) → String
  | [] => ""
  | [(k, v)] => String.mk (renderStr k) ++ ": " ++ dumpsVal v
  | (k, v) :: kvs => String.mk (renderStr k) ++ ": " ++ dumpsVal v ++ ", " ++ dumpsPairs kvs

end

/-- A chat message. -/
structure Msg where
  role : String
  content : String
deriving Repr, DecidableEq, Inhabited

/-- `_bundle_snapshot` (lines 215-223): non-underscore keys with non-empty
normalised rows, capped at ten rows each. -/
def bundleSnapshot (bundle : Bundle) : List (String × Val) :=
  bundle.filterMap (fun kv =>
    if kv.1.startsWith "_" then none
    else
      let rows := rowsOf kv.2
      if rows.isEmpty then none
      else some (kv.1, Val.arr ((rows.take 10).map Val.obj)))

/-- The instruction block of `_build_messages` (condensed to its first line;
the literal prompt text is opaque to every theorem below). -/
def promptInstructions : String :=
  "1. Diagnose traffic environments via device_share, browser_share, " ++
    "daily_count, and top_pages; [...] 5. Keep numbers grounded in the " ++
    "widget data, prefer percentages for shares, and always output JSON only."

/-- The serialized schema hint of `_build_messages` (condensed; opaque to
every theorem below). -/
def schemaHintText : String :=
  "\x7b\"generated_at\": \"ISO8601 string\", \"title\": " ++
    "\"AI Traffic Diagnosis & Action Report\", [...]\x7d"

/-- `_build_messages` (lines 314-426): the system turn and the single user
turn carrying locale, audience, word limit, instructions, custom prompt,
bundle snapshot and schema hint. -/
def buildMessages (bundle : Bundle) (prompt language audience : String)
    (wordLimit : Int) : List Msg :=
  let locale :=
    if language.toLower.startsWith "en" then "Respond in English."
    else "Respond in Korean."
  let userPrompt :=
    if prompt.trim = "" then "Diagnose the primary blockers and recommend actions."
    else prompt.trim
  let content :=
    locale ++ " Audience: " ++ audience ++ ". Soft word limit: " ++
      toString wordLimit ++ ".\n" ++ promptInstructions ++ "\n" ++
      "Custom request: " ++ userPrompt ++ "\n" ++
      "Widget data snapshot:\n" ++ dumpsVal (.obj (bundleSnapshot bundle)) ++ "\n" ++
      "Schema hint:\n" ++ schemaHintText
  [{ role := "system"
     content := "You are an AI web analyst that produces deterministic JSON " ++
       "reports referencing the provided data." },
   { role := "user", content := content }]

mutual

/-- Decoded model output as a bundle value. -/
def Json.toVal : Json → Val
  | .null => .null
  | .bool b => .bool b
  | .num n => .num (n : ℚ)
  | .str s => .str s
  | .arr xs => .arr (Json.toValList xs)
  | .obj kvs => .obj (Json.toValPairs kvs)

/-- Elementwise conversion. -/
def Json.toValList : List Json → List Val
  | [] => []
  | x :: xs => Json.toVal x :: Json.toValList xs

/-- Pairwise conversion. -/
def Json.toValPairs : List (String × Json) → List (String × Val)
  | [] => []
  | (k, v) :: kvs => (k, Json.toVal v) :: Json.toValPairs kvs

end

/-- Provider and model identifiers from configuration. -/
structure LlmCfg where
  provider : String
  model : String
deriving Repr, DecidableEq, Inhabited

/-- Request arguments of `generate_report`. -/
structure ReportArgs where
  fromIso : Option String
  toIso : Option String
  bucket : String
  siteId : Option String
  prompt : String
  language : String
  audience : String
  wordLimit : Int

/-- The generator context for one request. -/
def ctxOf (bundle : Bundle) (args : ReportArgs) : Ctx :=
  { bundle := bundle, fromIso := args.fromIso, toIso := args.toIso
    bucket := args.bucket, siteId := args.siteId, promptRaw := args.prompt }

/-- The `mode: error` report returned when widget collection itself raises
(lines 1136-1152). -/
def errorReport (nowIso excText : String) : Val :=
  .obj
    [("generated_at", .str nowIso),
     ("title", .str "AI Traffic Diagnosis & Action Report"),
     ("summary", .str "Widget queries failed. Verify collectors and rerun the AI report."),
     ("diagnostics", .arr []), ("page_issues", .arr []),
     ("interaction_insights", .arr []), ("ux_recommendations", .arr []),
     ("tech_recommendations", .arr []), ("priorities", .arr []),
     ("metrics_to_track", .arr []), ("predictions", .arr []),
     ("radar_scores", .arr []),
     ("meta", .obj [("mode", .str "error"), ("reason", .str excText)])]

/-- `setdefault` on a dict-shaped value. -/
def objSetdefault (v : Val) (k : String) (d : Val) : Val :=
  match v with
  | .obj kvs => .obj (pySetdefault kvs k d)
  | _ => v

/-- Item assignment on a dict-shaped value. -/
def objSet (v : Val) (k : String) (w : Val) : Val :=
  match v with
  | .obj kvs => .obj (pySet kvs k w)
  | _ => v

/-- `if not isinstance(data.get(field), list): data[field] = []`. -/
def coerceListField (data : Val) (field : String) : Val :=
  match objGet data field with
  | some (.arr _) => data
  | _ => objSet data field (.arr [])

/-- The nine list-valued report fields defaulted on the model path
(lines 1178-1190). -/
def reportListFields : List String :=
  ["diagnostics", "page_issues", "interaction_insights", "ux_recommendations",
   "tech_recommendations", "priorities", "metrics_to_track", "predictions",
   "radar_scores"]

/-- The model-path post-processing of a parsed report (lines 1176-1208):
defaults, list coercions, and the `meta` overwrite. -/
def mergeLlmData (cfg : LlmCfg) (args : ReportArgs) (deterministic data : Val)
    (nowIso : String) : Val :=
  let d1 := objSetdefault data "generated_at" (.str nowIso)
  let d2 := objSetdefault d1 "title"
    ((objGet deterministic "title").getD (.str "AI Traffic Diagnosis & Action Report"))
  let d3 := reportListFields.foldl coerceListField d2
  let d4 := objSetdefault d3 "summary" ((objGet deterministic "summary").getD (.str ""))
  let d5 :=
    match objGet d4 "meta" with
    | some (.obj _) => d4
    | _ => objSet d4 "meta" (.obj [])
  let detMeta := (objGet deterministic "meta").getD (.obj [])
  let metaPairs : List (String × Val) :=
    [("mode", .str "llm"), ("provider", .str cfg.provider), ("model", .str cfg.model),
     ("prompt", .str args.prompt),
     ("time", .obj [("from", optStr args.fromIso), ("to", optStr args.toIso),
       ("bucket", .str args.bucket)]),
     ("site_id", optStr args.siteId),
     ("widgets", (objGet detMeta "widgets").getD .null),
     ("missing_widgets", (objGet detMeta "missing_widgets").getD .null),
     ("trend", (objGet detMeta "trend").getD .null)]
  let meta0 := (objGet d5 "meta").getD (.obj [])
  let meta1 := metaPairs.foldl (fun m kv => objSet m kv.1 kv.2) meta0
  objSet d5 "meta" meta1

/-- The `except` branch of the model path (lines 1209-1216): stamp the
deterministic report with the swallowed error. -/
def llmFallback (deterministic : Val) (excText : String) : Val :=
  let meta0 := (objGet deterministic "meta").getD (.obj [])
  let det1 :=
    match objGet deterministic "meta" with
    | some _ => deterministic
    | none => objSet deterministic "meta" (.obj [])
  let m1 := objSetdefault meta0 "mode" (.str "deterministic")
  let m2 := objSet m1 "llm_error" (.str excText)
  let m3 := objSetdefault m2 "provider" (.str "insight-engine")
  let m4 := objSetdefault m3 "model" (.str "deterministic-v1")
  objSet det1 "meta" m4

/-- `generate_report` (lines 1123-1216).  `collect` stands for
`_collect_widget_data()` (a bundle, or the exception text it raises);
`llmOpenai`/`llmOllama` stand for the two model backends, each either
returning the assistant text or raising.  The result is the report the
caller receives; a `.error` would be an exception escaping to the caller. -/
def generate_report (cfg : LlmCfg) (collect : Except String Bundle)
    (llmOpenai llmOllama : List Msg → Except String String)
    (args : ReportArgs) (nowIso : String) : Except String Val :=
  match collect with
  | .error exc => .ok (errorReport nowIso exc)
  | .ok bundle =>
      let deterministic := build (ctxOf bundle args) nowIso
      if cfg.provider.toLower = "none" then .ok deterministic
      else
        let attempt : Except String Val := do
          let messages := buildMessages bundle args.prompt args.language
            args.audience args.wordLimit
          let content ←
            if cfg.provider = "openai_compat" then llmOpenai messages
            else llmOllama messages
          let data := Json.toVal (extractJson content)
          if !isObjV data || !truthy data then
            throw "LLM returned invalid JSON"
          pure (mergeLlmData cfg args deterministic data nowIso)
        match attempt with
        | .ok merged => .ok merged
        | .error exc => .ok (llmFallback deterministic exc)



/-! ## `explain_service.py`: LLM-backed insights

Exceptions from the HTTP client are modelled by `PyExc`; raising
`HTTPException(status, detail)` to the caller is the `.error` result of the
embedded `generate_insights`. -/

/-- An exception raised by a model-backend call, as
`_ollama_status_from_exception` classifies it. -/
inductive PyExc where
  | connectError (msg : String)
  | httpStatusError (status : Nat) (body : String) (msg : String)
  | other (msg : String)
deriving Repr, DecidableEq, Inhabited

/-- `str(exc)`. -/
def PyExc.text : PyExc → String
  | .connectError m => m
  | .httpStatusError _ _ m => m
  | .other m => m

/-- Python `needle in haystack` on strings. -/
def strContains (haystack needle : String) : Bool :=
  listContains haystack.toList needle.toList

/-- The Korean status message for a model still being pulled. -/
def msgDownloading : String := "모델을 다운로드 중입니다. 잠시 후 다시 시도해주세요."

/-- The Korean status message for an unreachable Ollama daemon. -/
def msgUnreachable : String :=
  "AI 백엔드(Ollama)에 연결할 수 없습니다. Docker/Ollama 상태를 확인해주세요."

/-- The Korean status message for a missing model. -/
def msgNotFound (model : String) : String :=
  "모델을 찾을 수 없습니다: " ++ model ++ ". 먼저 모델을 다운로드 해주세요."

/-- The trailing message heuristics of `_ollama_status_from_exception`
(lines 144-162). -/
def ollamaHeuristics (model : String) (msg : String) : Option (String × String) :=
  if strContains msg "model not found" || strContains msg "no such model" ||
      strContains msg "unknown model" then
    some ("model_not_found", msgNotFound model)
  else if strContains msg "pull" || strContains msg "downloading" ||
      strContains msg "waiting for model" || strContains msg "model is downloading" ||
      strContains msg "disconnect" || strContains msg "disconnected" then
    some ("model_downloading", msgDownloading)
  else none

/-- `_ollama_status_from_exception` (lines 102-162): map an exception to a
user-facing `(code, message)` pair, when recognised. -/
def ollamaStatus (model : String) (exc : PyExc) : Option (String × String) :=
  let msg := exc.text.toLower
  match exc with
  | .connectError _ =>
      if strContains msg "disconnect" || strContains msg "disconnected" then
        some ("model_downloading", msgDownloading)
      else some ("ollama_unreachable", msgUnreachable)
  | .httpStatusError status body _ =>
      let bodyL := body.toLower
      if status = 404 || strContains bodyL "model not found" ||
          strContains bodyL "no such model" || strContains bodyL "unknown model" then
        some ("model_not_found", msgNotFound model)
      else if status = 503 || (500 ≤ status && status < 600) ||
          strContains bodyL "pull" || strContains bodyL "downloading" ||
          strContains bodyL "waiting for model" ||
          strContains bodyL "model is downloading" then
        some ("model_downloading", msgDownloading)
      else ollamaHeuristics model msg
  | .other _ => ollamaHeuristics model msg

/-- List content of a value (rule-based digest reads; digests built by
`build_digest` always carry lists here). -/
def vList : Val → List Val
  | .arr xs => xs
  | _ => []

/-- Python `max(xs, key=f)`: the first element attaining the maximum. -/
def maxByFirst (f : Val → ℚ) (x0 : Val) (xs : List Val) : Val :=
  xs.foldl (fun best x => if f best < f x then x else best) x0

/-- Python `round(x, 4)`, modelled half-up. -/
def round4 (q : ℚ) : ℚ := (⌊q * 10000 + 1 / 2⌋ : ℚ) / 10000

/-- `_rule_based_insights` (lines 184-221): up to three templated insights
from the digest's peaks. -/
def ruleBasedInsights (digest : Val) (nowIso : String) : Val :=
  let series := (objGet digest "series").getD (.obj [])
  let pv := vList ((objGet series "pageviews").getD (.arr []))
  let err := vList ((objGet series "error_rate").getD (.arr []))
  let topPaths := vList ((objGet digest "top_paths").getD (.arr []))
  let pvPart :=
    match pv with
    | [] => []
    | x0 :: rest =>
      let peak := maxByFirst (fun x => objNumD x "v" 0) x0 rest
      [Val.obj
        [("title", .str "트래픽 피크"), ("severity", .str "low"),
         ("metric_refs", .arr [.str ("pageviews@" ++ pyStr ((objGet peak "t").getD .null))]),
         ("evidence", .obj [("peak", peak)]),
         ("explanation", .str "해당 구간의 페이지뷰가 최고치입니다. 배포/캠페인 여부 확인 권장."),
         ("action", .str "피크 전후 유입 경로 비교")]]
  let errPart :=
    match err with
    | [] => []
    | x0 :: rest =>
      let worst := maxByFirst (fun x => objNumD x "v" 0) x0 rest
      let v := objNumD worst "v" 0
      let sev := if 1 / 20 < v then "high" else if 1 / 50 < v then "medium" else "low"
      [Val.obj
        [("title", .str "에러율 고점"), ("severity", .str sev),
         ("metric_refs", .arr [.str ("error_rate@" ++ pyStr ((objGet worst "t").getD .null))]),
         ("evidence", .obj [("max_error_rate", .num (round4 v))]),
         ("explanation", .str "해당 구간에서 에러율이 평소보다 높습니다."),
         ("action", .str "구간 로그 샘플링 및 코드/상태코드 확인")]]
  let pathPart :=
    match topPaths with
    | [] => []
    | top :: _ =>
      [Val.obj
        [("title", .str "상위 경로 집중"), ("severity", .str "low"),
         ("metric_refs", .arr [.str ("path:" ++ objStrD top "path" "/")]),
         ("evidence", .obj
           [("path", (objGet top "path").getD (.str "/")),
            ("pv", (objGet top "pv").getD (.num 0))]),
         ("explanation", .str "특정 경로로 트래픽이 집중됩니다."),
         ("action", .str "해당 경로의 성능/환경제어 점검")]]
  .obj
    [("generated_at", .str nowIso),
     ("insights", .arr (pvPart ++ errPart ++ pathPart)),
     ("meta", .obj [("mode", .str "rule")])]

/-- `_extract_json` of `explain_service.py` (lines 60-94): the same scan as
the report variant, but failure returns a stamped fallback document. -/
def extractJsonInsights (text nowIso : String) : Json :=
  let fallback : Json := .obj
    [("generated_at", .str nowIso), ("insights", .arr []),
     ("meta", .obj [("fallback", .str "parse_failed")])]
  match parseDoc text with
  | some v => v
  | none =>
    match fromFirstBrace text.toList with
    | none => fallback
    | some tail =>
      match braceSlice [] 0 false false tail with
      | none => fallback
      | some cand =>
          match parseDoc (String.mk cand) with
          | some v => v
          | none => fallback

/-- `_compact_digest` (lines 225-247) with the default caps (40 series
points, 10 paths). -/
def compactDigest (digest : Val) : Val :=
  let mp := 40
  let tp := 10
  let series :=
    match objGet digest "series" with
    | some (.obj kvs) =>
        Val.obj (kvs.map (fun kv =>
          match kv.2 with
          | .arr xs => (kv.1, if mp < xs.length then Val.arr (xs.drop (xs.length - mp)) else .arr xs)
          | v => (kv.1, v)))
    | some v => v
    | none => .obj []
  let d1 := objSet digest "series" series
  let d2 :=
    match objGet d1 "top_paths" with
    | some (.arr xs) => if tp < xs.length then objSet d1 "top_paths" (.arr (xs.take tp)) else d1
    | _ => d1
  ["errors", "anomalies", "funnels"].foldl (fun d k =>
    match objGet d k with
    | some (.arr xs) => if tp < xs.length then objSet d k (.arr (xs.take tp)) else d
    | _ => d) d2

/-- `_build_messages` of `explain_service.py` (lines 249-283); the literal
schema/instruction text is condensed and opaque to every theorem. -/
def buildInsightMessages (cfg : LlmCfg) (digest : Val) (language : String)
    (wordLimit : Int) (audience : String) : List Msg :=
  let useDigest := if cfg.provider = "ollama" then compactDigest digest else digest
  [{ role := "system"
     content := "You are a senior analytics engineer. Return STRICT JSON ONLY " ++
       "that matches the 'Insights' schema. [...]" },
   { role := "user"
     content := "Language: " ++ language ++ "\nAudience: " ++ audience ++
       "\nWordLimit: " ++ toString wordLimit ++ "\n\n[...]\n\nDIGEST:\n" ++
       dumpsVal useDigest }]

/-- The cache key of `explain_service` (a SHA-256 of these fields in the
source; modelled as the tuple itself). -/
structure InsKey where
  digest : Val
  language : String
  wordLimit : Int
  audience : String
  provider : String
  model : String

/-- Key equality for the explain cache. -/
def insKeyBeq (a b : InsKey) : Bool :=
  Val.beq a.digest b.digest && a.language == b.language &&
    a.wordLimit == b.wordLimit && a.audience == b.audience &&
    a.provider == b.provider && a.model == b.model

/-- The explain cache: key-value pairs (TTL eviction handled by `TTLCache`
in the source; within this model a present entry is a fresh entry). -/
abbrev InsCache := List (InsKey × Val)

/-- Cache lookup. -/
def insCacheGet (cache : InsCache) (k : InsKey) : Option Val :=
  ((cache.find? (fun kv => insKeyBeq kv.1 k)).map (·.2))

/-- Cache store (replace wholesale). -/
def insCacheSet (cache : InsCache) (k : InsKey) (v : Val) : InsCache :=
  match cache with
  | [] => [(k, v)]
  | kv :: t => if insKeyBeq kv.1 k then (k, v) :: t else kv :: insCacheSet t k v

/-- The status-code table of the ollama error path (lines 389-394). -/
def ollamaStatusCode (code : String) : Nat :=
  if code = "model_not_found" then 404
  else if code = "model_downloading" then 503
  else if code = "ollama_unreachable" then 503
  else 502


/-- `str(e)[:500]`, slicing by code points. -/
def pyCut500 (s : String) : String := String.mk (s.toList.take 500)

/-- The `try` body of the model path of `generate_insights` (lines 361-378):
invoke the selected backend, repair the text, stamp defaults and meta; any
`.error` is the exception the `except` clause receives. -/
def insightsAttempt (cfg : LlmCfg) (llmOpenai llmOllama : List Msg → Except PyExc String)
    (messages : List Msg) (nowIso : String) : Except PyExc Val := do
  let content ←
    if cfg.provider = "ollama" then llmOllama messages else llmOpenai messages
  let parsed := Json.toVal (extractJsonInsights content nowIso)
  if !isObjV parsed then
    throw (.other ("'" ++ "list' object has no attribute 'setdefault'"))
  let p1 := objSetdefault parsed "generated_at" (.str nowIso)
  match objGet p1 "meta" with
  | some (.obj m) =>
      let m1 := [("provider", Val.str cfg.provider), ("model", Val.str cfg.model),
        ("prompt_version", Val.str "v1")].foldl (fun mm kv => pySet mm kv.1 kv.2) m
      pure (objSet p1 "meta" (.obj m1))
  | some _ => throw (.other "'str' object has no attribute 'update'")
  | none =>
      let m1 := [("provider", Val.str cfg.provider), ("model", Val.str cfg.model),
        ("prompt_version", Val.str "v1")].foldl (fun mm kv => pySet mm kv.1 kv.2) []
      pure (objSet p1 "meta" (.obj m1))

/-- The `except` clause of `generate_insights` (lines 380-425): for provider
`"ollama"` the exception is mapped to an `HTTPException` (the `.error`
result); otherwise the rule-based fallback is stamped and returned. -/
def insightsFailure (cfg : LlmCfg) (ttl : Int) (cache : InsCache) (key : InsKey)
    (digest : Val) (nowIso : String) (e : PyExc) :
    Except (Nat × Val) Val × InsCache :=
  if cfg.provider = "ollama" then
    match ollamaStatus cfg.model e with
    | some (code, userMsg) =>
        let detail := Val.obj
          [("code", .str code), ("message", .str userMsg),
           ("provider", .str cfg.provider), ("model", .str cfg.model),
           ("error", .str (pyCut500 e.text))]
        (.error (ollamaStatusCode code, detail), cache)
    | none =>
        (.error (502, Val.obj
          [("code", .str "Loading"),
           ("message", .str "The ollama service is now loading. Please try again later."),
           ("provider", .str cfg.provider), ("model", .str cfg.model)]), cache)
  else
    let result := ruleBasedInsights digest nowIso
    let meta0 := (objGet result "meta").getD (.obj [])
    let metaUpd :=
      match meta0 with
      | .obj m => Val.obj (pySet (pySet m "fallback" (.str "llm_error"))
          "error" (.str (pyCut500 e.text)))
      | v => v
    let result1 := objSet result "meta" metaUpd
    (.ok result1, if 0 < ttl then insCacheSet cache key result1 else cache)

/-- `generate_insights` (lines 350-425).  `ttl` is the configured cache TTL,
`llmOpenai`/`llmOllama` the backends; the `.error (status, detail)` result is
the `HTTPException` the source raises to the caller on the ollama path. -/
def generate_insights (cfg : LlmCfg) (ttl : Int) (cache : InsCache)
    (llmOpenai llmOllama : List Msg → Except PyExc String)
    (digest : Val) (language : String) (wordLimit : Int) (audience : String)
    (nowIso : String) : Except (Nat × Val) Val × InsCache :=
  let key : InsKey :=
    { digest := digest, language := language, wordLimit := wordLimit
      audience := audience, provider := cfg.provider, model := cfg.model }
  match (if 0 < ttl then insCacheGet cache key else none) with
  | some cached => (.ok cached, cache)
  | none =>
    let messages := buildInsightMessages cfg digest language wordLimit audience
    if cfg.provider ≠ "vllm" ∧ cfg.provider ≠ "openai_compat" ∧
        cfg.provider ≠ "openai" ∧ cfg.provider ≠ "ollama" then
      let result := ruleBasedInsights digest nowIso
      (.ok result, if 0 < ttl then insCacheSet cache key result else cache)
    else
      match insightsAttempt cfg llmOpenai llmOllama messages nowIso with
      | .ok parsed => (.ok parsed, if 0 < ttl then insCacheSet cache key parsed else cache)
      | .error e => insightsFailure cfg ttl cache key digest nowIso e


/-! ## `ai_insights/service.py`: digest assembly and its TTL cache

Wall-clock instants are rationals (`time.time()`); the SQL collectors are an
oracle record carrying what the five queries would return for the request's
fixed window. -/

/-- A digest-cache entry: key, store instant, document. -/
abbrev DigCache := List (String × ℚ × Val)

/-- `_cache_get` (lines 36-44): a missing key misses; an entry older than the
TTL is popped and misses; otherwise the stored document is returned.  The
updated store is returned alongside, mirroring the `pop`. -/
def cacheGet (cache : DigCache) (ttl now : ℚ) (key : String) :
    Option Val × DigCache :=
  match cache.find? (fun e => e.1 == key) with
  | none => (none, cache)
  | some e =>
      if ttl < now - e.2.1 then
        (none, cache.filter (fun e2 => e2.1 != key))
      else (some e.2.2, cache)

/-- `_cache_set` (lines 46-47): replace the entry wholesale. -/
def cacheSet (cache : DigCache) (key : String) (now : ℚ) (data : Val) : DigCache :=
  match cache with
  | [] => [(key, now, data)]
  | e :: t => if e.1 = key then (key, now, data) :: t else e :: cacheSet t key now data

/-- What the five aggregation queries return for one fixed
`(from, to, bucket, site)` window: `q_pv_series`, `q_error_series`,
`q_top_paths`, `q_sessions` and `q_funnel` outputs. -/
structure Queries where
  pvSeries : List (String × Int)
  errSeries : List (String × ℚ)
  topPaths : List (String × Int)
  sessions : Int
  funnelLanding : Int
  funnelProduct : Int
  funnelCheckout : Int

/-- The square root over ℚ as the float `math.sqrt` idealises it (a decimal
approximation; only the reported `z` magnitudes depend on it). -/
def sqrtApprox (q : ℚ) : ℚ :=
  if q ≤ 0 then 0
  else ((Nat.sqrt (q * 10 ^ 12).floor.toNat : ℚ) / 10 ^ 6)

/-- `_z_scores` (lines 96-113) on pageview points: below five points or zero
variance yields nothing; otherwise the points at least `z` standard
deviations out (the threshold compared exactly via squares). -/
def zScores (points : List (String × Int)) (z : ℚ) : List Val :=
  let vals := points.map (fun p => (p.2 : ℚ))
  if vals.length < 5 then []
  else
    let m := meanQ vals
    let var := meanQ (vals.map (fun x => (x - m) ^ 2))
    if var = 0 then []
    else
      points.filterMap (fun p =>
        let v := (p.2 : ℚ)
        if z ^ 2 * var ≤ (v - m) ^ 2 then
          some (Val.obj
            [("metric", .str "pageviews"), ("at", .str p.1),
             ("z", .num (round2 ((v - m) / sqrtApprox var)))])
        else none)

/-- The digest document assembled from the query results (lines 256-273). -/
def digestOf (q : Queries) (fromIso toIso bucket : String)
    (siteId : Option String) : Val :=
  let pvSeries := q.pvSeries.map (fun p =>
    Val.obj [("t", .str p.1), ("v", .num (p.2 : ℚ))])
  let errSeries := q.errSeries.map (fun p =>
    Val.obj [("t", .str p.1), ("v", .num p.2)])
  let topPaths := q.topPaths.map (fun p =>
    Val.obj [("path", .str p.1), ("pv", .num (p.2 : ℚ))])
  let totalsPv : Int := if q.pvSeries.isEmpty then 0 else (q.pvSeries.map (·.2)).sum
  let anomalies := zScores q.pvSeries 3
  let conv : ℚ :=
    if q.funnelProduct ≠ 0 then (q.funnelCheckout : ℚ) / (q.funnelProduct : ℚ) else 0
  .obj
    [("version", .str "1"),
     ("time_window", .obj
       [("from", .str fromIso), ("to", .str toIso), ("bucket", .str bucket)]),
     ("context", .obj
       [("site_id", .str (match siteId with
          | some s => if s ≠ "" then s else "default"
          | none => "default")),
        ("filters", .obj [])]),
     ("totals", .obj
       [("pageviews", .num (totalsPv : ℚ)), ("sessions", .num (q.sessions : ℚ)),
        ("users", .num (q.sessions : ℚ))]),
     ("series", .obj [("pageviews", .arr pvSeries), ("error_rate", .arr errSeries)]),
     ("top_paths", .arr topPaths),
     ("errors", .obj [("by_code", .arr []), ("top_endpoints", .arr [])]),
     ("funnels", .arr [.obj
       [("name", .str "landing→product→checkout"), ("conv", .num conv)]]),
     ("anomalies", .arr anomalies)]

/-- The cache key string (line 238). -/
def digestKey (fromIso toIso bucket : String) (siteId : Option String) : String :=
  fromIso ++ "|" ++ toIso ++ "|" ++ bucket ++ "|" ++
    (match siteId with
     | some s => s
     | none => "")

/-- `build_digest` (lines 230-276).  `now` is `time.time()`, `nowIso` and
`dayAgoIso` the window defaults; `q` stands for the SQL collectors.  The
second component is the cache after the call. -/
def build_digest (ttl : ℚ) (cache : DigCache) (now : ℚ)
    (nowIso dayAgoIso : String) (q : Queries) (fromIso toIso : Option String)
    (bucket : String) (siteId : Option String) : Val × DigCache :=
  let toIso' :=
    match toIso with
    | some s => if s ≠ "" then s else nowIso
    | none => nowIso
  let fromIso' :=
    match fromIso with
    | some s => if s ≠ "" then s else dayAgoIso
    | none => dayAgoIso
  let bucket' := (if bucket = "" then "1h" else bucket).toLower
  let key := digestKey fromIso' toIso' bucket' siteId
  match cacheGet cache ttl now key with
  | (some cached, cache') => (cached, cache')
  | (none, cache') =>
      let digest := digestOf q fromIso' toIso' bucket' siteId
      (digest, cacheSet cache' key now digest)



/-! ## Concrete fixtures used by the theorems below -/

/-- A daily-count row. -/
def dayRow (n : Int) : Val := .obj [("cnt", .num (n : ℚ))]

/-- The scenario bundle whose only data is the daily series
`[100, 100, 100, 130]`. -/
def dailyOnlyBundle : Bundle :=
  [("daily_count", .obj [("rows", .arr [dayRow 100, dayRow 100, dayRow 100, dayRow 130])])]

/-- The generator context over `dailyOnlyBundle`. -/
def dailyOnlyCtx : Ctx :=
  { bundle := dailyOnlyBundle, fromIso := none, toIso := none, bucket := "1d"
    siteId := none, promptRaw := "" }

/-- The generator context over the empty bundle. -/
def emptyCtx : Ctx :=
  { bundle := [], fromIso := none, toIso := none, bucket := "1h"
    siteId := none, promptRaw := "" }

/-- Fixture request arguments. -/
def fixtureArgs : ReportArgs :=
  { fromIso := none, toIso := none, bucket := "1h", siteId := none
    prompt := "", language := "en", audience := "marketer", wordLimit := 800 }

/-- Fixture configuration selecting the self-hosted backend. -/
def cfgOllama : LlmCfg := { provider := "ollama", model := "llama3.1:8b-instruct" }

/-- An oracle that answers prose to the original report prompt and a perfect
report object to any other prompt (in particular to any corrective retry
prompt, were one ever issued). -/
def retrySensitiveOracle : List Msg → Except String String := fun msgs =>
  if msgs = buildMessages [] "" "en" "marketer" 800 then .ok "no json here"
  else .ok "\x7b\"title\": \"Perfect\"\x7d"

/-- An oracle for the unused backend slot. -/
def unusedOracle : List Msg → Except String String := fun _ => .error "unused"

/-- A backend whose connection is refused. -/
def connRefusedOracle : List Msg → Except PyExc String := fun _ =>
  .error (.connectError "connection refused")

/-- A backend that raises a generic error. -/
def boomOracle : List Msg → Except PyExc String := fun _ => .error (.other "boom")

/-- A cached digest fixture. -/
def digestFixture : Val := .obj [("version", .str "1")]

/-- A digest cache holding one entry stored at instant 10. -/
def digCacheFixture : DigCache :=
  [(digestKey "F" "T" "1h" none, 10, digestFixture)]

/-- A query-result fixture for `build_digest`. -/
def queriesFixture : Queries :=
  { pvSeries := [("t0", 5)], errSeries := [], topPaths := [("/", 5)]
    sessions := 3, funnelLanding := 2, funnelProduct := 1, funnelCheckout := 1 }



/-- The expected C2 outcome: the deterministic report stamped with the
swallowed parse failure. -/
def c2Expected : Val :=
  llmFallback (build (ctxOf [] fixtureArgs) "T0") "LLM returned invalid JSON"

/-- A backend answering prose (from which no object can be repaired). -/
def proseOracle : List Msg → Except String String := fun _ => .ok "no json here"

/-- A second query fixture differing from `queriesFixture`. -/
def queriesFixture2 : Queries :=
  { pvSeries := [("t9", 99)], errSeries := [("t9", 1/2)], topPaths := []
    sessions := 999, funnelLanding := 0, funnelProduct := 0, funnelCheckout := 0 }

/-! ## Theorems -/

/-- C6: for every input string, `_extract_json` terminates with a value, and
that value is either a strict parse of the whole text, a strict parse of the
first balanced brace slice, or the empty dict as the defined give-up state —
never an exception; on the irrecoverable unterminated-string fixture it
returns the empty dict. -/
theorem C6_extractJson_total_never_raises :
    (∀ s : String,
        parseDoc s = some (extractJson s) ∨
        (∃ cand, (fromFirstBrace s.toList).bind (braceSlice [] 0 false false) = some cand ∧
            parseDoc (String.mk cand) = some (extractJson s)) ∨
        extractJson s = Json.obj []) ∧
    extractJson "\x7b\"oops\": \"unterminated" = Json.obj [] := by
  refine ⟨fun s => ?_, rfl⟩
  unfold extractJson
  cases h1 : parseDoc s with
  | some v => simp
  | none =>
    cases h2 : fromFirstBrace s.toList with
    | none => simp
    | some tail =>
      cases h3 : braceSlice [] 0 false false tail with
      | none => simp [h3]
      | some cand =>
        cases h4 : parseDoc (String.mk cand) with
        | none => simp [h3, h4]
        | some v =>
          exact Or.inr (Or.inl ⟨cand, by simp [h3], by simp [h3, h4]⟩)

/-- C1 counterexample: on the fenced trailing-comma fixture, `_extract_json`
returns the empty dict, not the intended object — the balanced slice
`\x7b"title": "x",\x7d` fails the strict parse and the loop breaks without any
trailing-comma repair. -/
theorem C1_counterexample :
    extractJson "```json\n\x7b\"title\": \"x\",\x7d\n```" = Json.obj [] ∧
    extractJson "```json\n\x7b\"title\": \"x\",\x7d\n```" ≠
      Json.obj [("title", Json.str "x")] := by
  refine ⟨rfl, fun h => ?_⟩
  rw [show extractJson "```json\n\x7b\"title\": \"x\",\x7d\n```" = Json.obj [] from rfl] at h
  simp at h

/-- C1 as amended: `_extract_json` does recover the fenced object when the
JSON is strict (no trailing comma), and returns the empty dict on the
trailing-comma variant. -/
theorem C1_amended_fenced_extraction :
    extractJson "```json\n\x7b\"title\": \"x\"\x7d\n```" =
      Json.obj [("title", Json.str "x")] ∧
    extractJson "```json\n\x7b\"title\": \"x\",\x7d\n```" = Json.obj [] :=
  ⟨rfl, rfl⟩



/-- C5: two runs of `InsightGenerator.build` on the same bundle and
constructor arguments agree on every field other than `generated_at` — the
build consumes nothing but the bundle, the constructor arguments and the
clock, and only `generated_at` reads the clock. -/
theorem C5_build_two_run_determinism :
    ∀ (c : Ctx) (t1 t2 : String) (k : String), k ≠ "generated_at" →
      objGet (build c t1) k = objGet (build c t2) k := by
  intro c t1 t2 k hk
  have hbeq : ("generated_at" == k) = false :=
    beq_eq_false_iff_ne.mpr (fun h => hk h.symm)
  simp only [build, objGet, pyGet, List.find?, hbeq]

/-- C5 witness: the titles of two runs at different instants coincide. -/
theorem C5_witness :
    objGet (build emptyCtx "2025-01-01T00:00:00+00:00") "title" =
      objGet (build emptyCtx "2026-02-02T00:00:00+00:00") "title" :=
  C5_build_two_run_determinism emptyCtx _ _ "title" (by decide)

/-- C10: `_safe_pct` yields `0.0` whenever the denominator is not positive,
so no share computed by the deterministic engine divides by zero; a
distribution either has no items or a positive total (its `total or 1`
denominator is always positive), and the empty distribution is total zero
with no items. -/
theorem C10_safePct_guard :
    (∀ part whole : ℚ, whole ≤ 0 → safePct part whole = 0) ∧
    (∀ (rows : List Row) (keys : List String),
        (distribution rows keys).items = [] ∨ 0 < (distribution rows keys).total) ∧
    distribution ([] : List Row) ["device", "type", "name"] =
      { total := 0, items := [] } := by
  refine ⟨fun part whole h => by simp [safePct, h], fun rows keys => ?_, rfl⟩
  unfold distribution
  set raw := rows.filterMap (fun row =>
    let label := safeLabel row keys "Unknown"
    let value := pytrunc (pick row ["sessions", "count", "value", "views"])
    if value ≤ 0 then none else some (label, value)) with hraw
  rcases hr : raw with _ | ⟨x, xs⟩
  · left
    simp [hr, sortDescBy, List.insertionSort]
  · right
    have hmem : ∀ p ∈ raw, (0 : Int) < p.2 := by
      intro p hp
      rw [hraw] at hp
      simp only [List.mem_filterMap] at hp
      obtain ⟨row, _, hf⟩ := hp
      by_cases hv : pytrunc (pick row ["sessions", "count", "value", "views"]) ≤ 0
      · simp [hv] at hf
      · simp only [if_neg hv, Option.some.injEq] at hf
        rw [← hf]
        omega
    have : (0 : Int) < (raw.map (·.2)).sum := by
      apply List.sum_pos
      · intro v hv
        simp only [List.mem_map] at hv
        obtain ⟨p, hp, rfl⟩ := hv
        exact hmem p hp
      · simp [hr]
    simpa [hr] using this

/-- C10 witness: a concrete non-positive denominator yields zero. -/
theorem C10_witness : safePct 5 (-1) = 0 :=
  C10_safePct_guard.1 5 (-1) (by norm_num)



/-- Two-decimal rounding is idempotent. -/
theorem round2_idem (x : ℚ) : round2 (round2 x) = round2 x := by
  unfold round2
  set k := ⌊x * 100 + 1 / 2⌋ with hk
  have : (k : ℚ) / 100 * 100 + 1 / 2 = (k : ℚ) + 1 / 2 := by ring
  rw [this]
  rw [show ((k : ℚ) + 1 / 2) = ((k : ℚ) + 1 / 2) from rfl]
  have hfl : ⌊(k : ℚ) + 1 / 2⌋ = k := by
    rw [Int.floor_int_add]
    norm_num
  rw [hfl]

/-- `_safe_pct` output is already two-decimal rounded. -/
theorem round2_safePct (a b : ℚ) : round2 (safePct a b) = safePct a b := by
  unfold safePct
  split
  · simp [round2]
    norm_num
  · exact round2_idem _

/-- C7: on the scenario bundle whose only series is `[100, 100, 100, 130]`
the trend label is `rising` with `change_pct` 30; and on every context with a
non-empty daily series the label is `rising`/`falling`/`flat` exactly as the
reported first-to-last percent change clears `+6`/`-6`. -/
theorem C7_traffic_trend :
    (∀ c : Ctx, dailySeries c ≠ [] →
        ∃ cp : ℚ, objGet (trafficTrend c) "change_pct" = some (.num cp) ∧
          objGet (trafficTrend c) "label" =
            some (.str (if 6 ≤ cp then "rising" else if cp ≤ -6 then "falling" else "flat"))) ∧
    objGet (trafficTrend dailyOnlyCtx) "label" = some (.str "rising") ∧
    objGet (trafficTrend dailyOnlyCtx) "change_pct" = some (.num 30) := by
  refine ⟨fun c hne => ?_, by with_unfolding_all rfl, by with_unfolding_all rfl⟩
  unfold trafficTrend
  rcases hv : dailySeries c with _ | ⟨v0, vs⟩
  · exact absurd hv hne
  · simp [objGet, pyGet, List.find?, round2_safePct]

/-- C7 witness: the general threshold law applied to the scenario context. -/
theorem C7_witness :
    ∃ cp : ℚ, objGet (trafficTrend dailyOnlyCtx) "change_pct" = some (.num cp) ∧
      objGet (trafficTrend dailyOnlyCtx) "label" =
        some (.str (if 6 ≤ cp then "rising" else if cp ≤ -6 then "falling" else "flat")) :=
  C7_traffic_trend.1 dailyOnlyCtx (by with_unfolding_all decide)




/-- Updating one dict key leaves the others unchanged. -/
theorem pyGet_pySet_ne (kvs : Row) (k k' : String) (v : Val) (h : k ≠ k') :
    pyGet (pySet kvs k v) k' = pyGet kvs k' := by
  induction kvs with
  | nil => simp [pySet, pyGet, List.find?, beq_eq_false_iff_ne.mpr h]
  | cons kv t ih =>
      by_cases hk : kv.1 = k
      · have hne : (kv.1 == k') = false := beq_eq_false_iff_ne.mpr (by rw [hk]; exact h)
        simp [pySet, hk, pyGet, List.find?, hne, beq_eq_false_iff_ne.mpr h]
      · by_cases hk' : kv.1 = k'
        · simp [pySet, hk, pyGet, List.find?, hk', Ne.symm h]
        · have hne : (kv.1 == k') = false := beq_eq_false_iff_ne.mpr hk'
          simp only [pySet, if_neg hk, pyGet, List.find?, hne] at ih ⊢
          exact ih

/-- `objSet` at one key leaves lookups at other keys unchanged. -/
theorem objGet_objSet_ne (x : Val) (k k' : String) (v : Val) (h : k ≠ k') :
    objGet (objSet x k v) k' = objGet x k' := by
  cases x with
  | obj kvs => exact pyGet_pySet_ne kvs k k' v h
  | null => rfl
  | bool b => rfl
  | num q => rfl
  | str s => rfl
  | arr xs => rfl

/-- The radar clamp lands in `[20, 95]`. -/
theorem radarClamp_mem (v : ℚ) : 20 ≤ radarClamp v ∧ radarClamp v ≤ 95 := by
  unfold radarClamp pytrunc
  set w := max 20 (min 95 (round2 v)) with hw
  have h20 : (20 : ℚ) ≤ w := le_max_left _ _
  have h95 : w ≤ 95 := max_le (by norm_num) (min_le_left _ _)
  rw [if_neg (by push_neg; linarith)]
  constructor
  · exact Int.le_floor.mpr (by exact_mod_cast h20)
  · calc ⌊w⌋ ≤ ⌊(95 : ℚ)⌋ := Int.floor_le_floor h95
      _ = 95 := by norm_num

/-- A radar entry built from the clamp carries an integer score in
`[0, 100]`. -/
theorem radarEntry_score_ok (a cm : String) (q : ℚ) :
    ∃ s : Int,
      objGet (Val.obj [("axis", .str a), ("score", .num ((radarClamp q : Int) : ℚ)),
          ("commentary", .str cm)]) "score" = some (.num (s : ℚ)) ∧
        0 ≤ s ∧ s ≤ 100 :=
  ⟨radarClamp q, by simp [objGet, pyGet, List.find?],
    le_trans (by norm_num) (radarClamp_mem q).1,
    le_trans (radarClamp_mem q).2 (by norm_num)⟩

/-- C4 as amended: on every deterministic build, `radar_scores` is a
five-entry list whose axes are exactly the canonical five in canonical order,
each entry carrying an integer score within `[0, 100]` (indeed `[20, 95]`);
the LLM-failure fallback path returns the deterministic report's
`radar_scores` untouched. -/
theorem C4_radar_five_axes :
    (∀ (c : Ctx) (nowIso : String),
      ∃ radar : List Val,
        objGet (build c nowIso) "radar_scores" = some (.arr radar) ∧
        radar.length = 5 ∧
        radar.map (fun v => objGet v "axis") =
          [some (.str "performance"), some (.str "experience"), some (.str "growth"),
           some (.str "search"), some (.str "stability")] ∧
        ∀ v ∈ radar, ∃ s : Int,
          objGet v "score" = some (.num (s : ℚ)) ∧ 0 ≤ s ∧ s ≤ 100) ∧
    (∀ (det : Val) (exc : String),
      objGet (llmFallback det exc) "radar_scores" = objGet det "radar_scores") := by
  constructor
  · intro c nowIso
    refine ⟨radarScores c (pageIssues c) (trafficTrend c) (missingWidgets c).length,
      ?_, ?_, ?_, ?_⟩
    · simp [build, objGet, pyGet, List.find?]
    · simp [radarScores]
    · simp [radarScores, objGet, pyGet, List.find?]
    · intro v hv
      simp only [radarScores, List.map, List.mem_cons, List.not_mem_nil, or_false] at hv
      rcases hv with rfl | rfl | rfl | rfl | rfl
      all_goals exact radarEntry_score_ok _ _ _
  · intro det exc
    have hne : ("meta" : String) ≠ "radar_scores" := by decide
    unfold llmFallback
    cases h : objGet det "meta" with
    | some m =>
        simp only [h]
        rw [objGet_objSet_ne _ _ _ _ hne]
    | none =>
        simp only [h]
        rw [objGet_objSet_ne _ _ _ _ hne, objGet_objSet_ne _ _ _ _ hne]

/-- C4 counterexample: on the error path (widget collection raised) the
returned report's `radar_scores` is the empty list, not the five canonical
axes. -/
theorem C4_counterexample :
    ∃ r, generate_report cfgOllama (.error "collector down") unusedOracle
        unusedOracle fixtureArgs "T0" = .ok r ∧
      objGet r "radar_scores" = some (.arr []) :=
  ⟨errorReport "T0" "collector down", rfl, rfl⟩


/-- C2 as amended: `generate_report` consults the Model Invocation Client at
most once, on the messages built from the original prompt — its outcome
depends on the backends only through their answer to those messages, so no
corrective retry round-trip exists; and whenever the Repair Engine returns an
empty result on that single output, the failure is swallowed into
`meta.llm_error` and the deterministic report is returned. -/
theorem C2_no_retry_single_invocation :
    (∀ (cfg : LlmCfg) (bundle : Bundle)
        (f f' g g' : List Msg → Except String String) (args : ReportArgs) (now : String),
      f (buildMessages bundle args.prompt args.language args.audience args.wordLimit) =
        f' (buildMessages bundle args.prompt args.language args.audience args.wordLimit) →
      g (buildMessages bundle args.prompt args.language args.audience args.wordLimit) =
        g' (buildMessages bundle args.prompt args.language args.audience args.wordLimit) →
      generate_report cfg (.ok bundle) f g args now =
        generate_report cfg (.ok bundle) f' g' args now) ∧
    (∀ (cfg : LlmCfg) (bundle : Bundle)
        (f g : List Msg → Except String String) (args : ReportArgs)
        (now content : String),
      cfg.provider.toLower ≠ "none" →
      cfg.provider ≠ "openai_compat" →
      g (buildMessages bundle args.prompt args.language args.audience args.wordLimit) =
        .ok content →
      (!isObjV (Json.toVal (extractJson content)) ||
        !truthy (Json.toVal (extractJson content))) = true →
      generate_report cfg (.ok bundle) f g args now =
        .ok (llmFallback (build (ctxOf bundle args) now) "LLM returned invalid JSON")) := by
  constructor
  · intro cfg bundle f f' g g' args now hf hg
    simp only [generate_report]
    rw [hf, hg]
  · intro cfg bundle f g args now content hnone hcompat hresp hbad
    simp only [generate_report]
    rw [if_neg hnone, if_neg hcompat, hresp]
    simp [bind, Except.bind, throw, throwThe, MonadExceptOf.throw, hbad]

set_option maxRecDepth 100000 in
/-- C2 witness: the swallow clause applied with a prose-only backend. -/
theorem C2_witness :
    generate_report cfgOllama (.ok []) unusedOracle proseOracle fixtureArgs "T0" =
      .ok (llmFallback (build (ctxOf [] fixtureArgs) "T0") "LLM returned invalid JSON") :=
  C2_no_retry_single_invocation.2 cfgOllama [] unusedOracle proseOracle fixtureArgs
    "T0" "no json here" (by with_unfolding_all decide) (by decide) rfl
    (by with_unfolding_all decide)

set_option maxRecDepth 100000 in
/-- C2 counterexample: with a backend that would answer a perfect report to
any corrective retry prompt but prose to the original prompt, the pipeline
still returns the deterministic fallback with `meta.llm_error` set and
`meta.mode = "deterministic"` — the retry described by the claim never
happens. -/
theorem C2_counterexample :
    generate_report cfgOllama (.ok []) unusedOracle retrySensitiveOracle fixtureArgs "T0" =
      .ok c2Expected ∧
    objGet ((objGet c2Expected "meta").getD .null) "mode" = some (.str "deterministic") ∧
    objGet ((objGet c2Expected "meta").getD .null) "llm_error" =
      some (.str "LLM returned invalid JSON") := by
  refine ⟨?_, ?_, ?_⟩
  · with_unfolding_all rfl
  · with_unfolding_all rfl
  · with_unfolding_all rfl


/-- C3 as amended: `generate_report` recovers every transport failure locally
— for all collection outcomes and backend behaviours it returns a report and
never raises; `generate_insights` does the same for every non-`ollama`
provider, but for provider `"ollama"` a transport error is re-raised to the
caller as an `HTTPException` (here: a 503 for a refused connection) instead
of a document. -/
theorem C3_transport_errors :
    (∀ (cfg : LlmCfg) (collect : Except String Bundle)
        (f g : List Msg → Except String String) (args : ReportArgs) (now : String),
      ∃ r, generate_report cfg collect f g args now = .ok r) ∧
    (∀ (cfg : LlmCfg) (ttl : Int) (cache : InsCache)
        (f g : List Msg → Except PyExc String) (digest : Val) (language : String)
        (wordLimit : Int) (audience : String) (now : String),
      cfg.provider ≠ "ollama" →
      ∃ r cache', generate_insights cfg ttl cache f g digest language wordLimit
        audience now = (.ok r, cache')) := by
  constructor
  · intro cfg collect f g args now
    unfold generate_report
    split
    · exact ⟨_, rfl⟩
    · dsimp only
      split
      · exact ⟨_, rfl⟩
      · split
        · exact ⟨_, rfl⟩
        · exact ⟨_, rfl⟩
  · intro cfg ttl cache f g digest language wordLimit audience now h
    unfold generate_insights
    dsimp only
    rcases (if (0 : Int) < ttl then
        insCacheGet cache
          { digest := digest, language := language, wordLimit := wordLimit
            audience := audience, provider := cfg.provider, model := cfg.model }
      else none) with _ | cached
    · by_cases hrule : cfg.provider ≠ "vllm" ∧ cfg.provider ≠ "openai_compat" ∧
          cfg.provider ≠ "openai" ∧ cfg.provider ≠ "ollama"
      · rw [if_pos hrule]
        exact ⟨_, _, rfl⟩
      · rw [if_neg hrule]
        rcases insightsAttempt cfg f g
            (buildInsightMessages cfg digest language wordLimit audience) now with e | parsed
        · dsimp only
          unfold insightsFailure
          rw [if_neg h]
          exact ⟨_, _, rfl⟩
        · exact ⟨_, _, rfl⟩
    · exact ⟨_, _, rfl⟩



set_option maxRecDepth 100000 in
/-- C3 counterexample: with provider `"ollama"` and a refused connection,
`generate_insights` raises a 503 `HTTPException` to the caller (its detail
names `ollama_unreachable`) instead of returning a document. -/
theorem C3_counterexample :
    (generate_insights cfgOllama 300 [] connRefusedOracle connRefusedOracle
        (Val.obj []) "en" 200 "marketer" "T0").1 =
      .error (503, Val.obj
        [("code", .str "ollama_unreachable"), ("message", .str msgUnreachable),
         ("provider", .str "ollama"), ("model", .str "llama3.1:8b-instruct"),
         ("error", .str "connection refused")]) := by
  with_unfolding_all rfl

set_option maxRecDepth 100000 in
/-- C3 witness: the report path with a failing backend still yields a report,
and the insights path with a non-ollama provider and a failing backend also
yields a document. -/
theorem C3_witness :
    (∃ r, generate_report cfgOllama (.ok []) unusedOracle unusedOracle
        fixtureArgs "T0" = .ok r) ∧
    (∃ r cache', generate_insights { provider := "openai_compat", model := "m" } 300 []
        boomOracle boomOracle (Val.obj []) "en" 200 "marketer" "T0" = (.ok r, cache')) :=
  ⟨C3_transport_errors.1 cfgOllama (.ok []) unusedOracle unusedOracle fixtureArgs "T0",
   C3_transport_errors.2 { provider := "openai_compat", model := "m" } 300 []
     boomOracle boomOracle (Val.obj []) "en" 200 "marketer" "T0" (by decide)⟩



/-- C9: a second `build_digest` call with the identical
`(from, to, bucket, site_id)` key within the TTL returns the cached digest
without consulting the aggregation queries (the result is the stored document
for every oracle, and the cache is untouched); an entry older than the TTL is
popped and the digest recomputed from the queries, the entry being replaced
wholesale. -/
theorem C9_digest_cache :
    (∀ (ttl now ts : ℚ) (cache : DigCache) (nowIso dayAgoIso : String)
        (q q' : Queries) (f t b : String) (s : Option String) (d : Val),
      f ≠ "" → t ≠ "" →
      cache.find? (fun e => e.1 == digestKey f t ((if b = "" then "1h" else b).toLower) s) =
        some (digestKey f t ((if b = "" then "1h" else b).toLower) s, ts, d) →
      now - ts ≤ ttl →
      build_digest ttl cache now nowIso dayAgoIso q (some f) (some t) b s = (d, cache) ∧
      build_digest ttl cache now nowIso dayAgoIso q (some f) (some t) b s =
        build_digest ttl cache now nowIso dayAgoIso q' (some f) (some t) b s) ∧
    (∀ (ttl now ts : ℚ) (cache : DigCache) (nowIso dayAgoIso : String)
        (q : Queries) (f t b : String) (s : Option String) (d : Val),
      f ≠ "" → t ≠ "" →
      cache.find? (fun e => e.1 == digestKey f t ((if b = "" then "1h" else b).toLower) s) =
        some (digestKey f t ((if b = "" then "1h" else b).toLower) s, ts, d) →
      ttl < now - ts →
      build_digest ttl cache now nowIso dayAgoIso q (some f) (some t) b s =
        (digestOf q f t ((if b = "" then "1h" else b).toLower) s,
         cacheSet
           (cache.filter (fun e2 =>
             e2.1 != digestKey f t ((if b = "" then "1h" else b).toLower) s))
           (digestKey f t ((if b = "" then "1h" else b).toLower) s) now
           (digestOf q f t ((if b = "" then "1h" else b).toLower) s))) := by
  constructor
  · intro ttl now ts cache nowIso dayAgoIso q q' f t b s d hf ht hfind hfresh
    have hone : build_digest ttl cache now nowIso dayAgoIso q (some f) (some t) b s =
        (d, cache) := by
      unfold build_digest
      dsimp only
      rw [if_pos ht, if_pos hf]
      unfold cacheGet
      rw [hfind]
      dsimp only
      rw [if_neg (not_lt.mpr hfresh)]
    have htwo : build_digest ttl cache now nowIso dayAgoIso q' (some f) (some t) b s =
        (d, cache) := by
      unfold build_digest
      dsimp only
      rw [if_pos ht, if_pos hf]
      unfold cacheGet
      rw [hfind]
      dsimp only
      rw [if_neg (not_lt.mpr hfresh)]
    exact ⟨hone, hone.trans htwo.symm⟩
  · intro ttl now ts cache nowIso dayAgoIso q f t b s d hf ht hfind hstale
    unfold build_digest
    dsimp only
    rw [if_pos ht, if_pos hf]
    unfold cacheGet
    rw [hfind]
    dsimp only
    rw [if_pos hstale]

set_option maxRecDepth 100000 in
/-- C9 witness: the fixture cache at instant 20 with TTL 60 serves the stored
digest for two different oracles; and at instant 200 (entry expired) the
digest is recomputed and the entry replaced. -/
theorem C9_witness :
    (build_digest 60 digCacheFixture 20 "N" "D" queriesFixture
        (some "F") (some "T") "1h" none = (digestFixture, digCacheFixture) ∧
     build_digest 60 digCacheFixture 20 "N" "D" queriesFixture
        (some "F") (some "T") "1h" none =
       build_digest 60 digCacheFixture 20 "N" "D" queriesFixture2
        (some "F") (some "T") "1h" none) ∧
    build_digest 60 digCacheFixture 200 "N" "D" queriesFixture
        (some "F") (some "T") "1h" none =
      (digestOf queriesFixture "F" "T" "1h" none,
       cacheSet
         (digCacheFixture.filter (fun e2 => e2.1 != digestKey "F" "T" "1h" none))
         (digestKey "F" "T" "1h" none) 200
         (digestOf queriesFixture "F" "T" "1h" none)) :=
  ⟨by
    with_unfolding_all
      exact C9_digest_cache.1 60 20 10 digCacheFixture "N" "D" queriesFixture
        queriesFixture2 "F" "T" "1h" none digestFixture (by decide) (by decide)
        (by with_unfolding_all rfl) (by norm_num),
   by
    with_unfolding_all
      exact C9_digest_cache.2 60 200 10 digCacheFixture "N" "D" queriesFixture
        "F" "T" "1h" none digestFixture (by decide) (by decide)
        (by with_unfolding_all rfl) (by norm_num)⟩



/-- C4 witness: the amended radar invariant at a concrete context. -/
theorem C4_witness :
    ∃ radar : List Val,
      objGet (build emptyCtx "T0") "radar_scores" = some (.arr radar) ∧
      radar.length = 5 ∧
      radar.map (fun v => objGet v "axis") =
        [some (.str "performance"), some (.str "experience"), some (.str "growth"),
         some (.str "search"), some (.str "stability")] ∧
      ∀ v ∈ radar, ∃ s : Int,
        objGet v "score" = some (.num (s : ℚ)) ∧ 0 ≤ s ∧ s ≤ 100 :=
  C4_radar_five_axes.1 emptyCtx "T0"

/-! ## The serializer/parser round trip (C8) -/

/-- `dropWs` leaves a list headed by a non-whitespace character alone. -/
theorem dropWs_cons_of_not_ws {c : Char} (r : List Char) (h : jsonWs c = false) :
    dropWs (c :: r) = c :: r := by
  simp [dropWs, h]

/-- `dropWs` eats one leading blank. -/
theorem dropWs_space (r : List Char) : dropWs (' ' :: r) = dropWs r := by
  simp [dropWs, jsonWs]

/-- Hex digits decode what `hexDigChar` encodes. -/
theorem hexNib_hexDigChar : ∀ d < 16, hexNib (hexDigChar d) = some d := by decide

/-- `codeUnitChar` agrees with `Char.ofNat` on valid scalar values. -/
theorem codeUnitChar_valid (n : Nat) (h : n.isValidChar) :
    codeUnitChar n = Char.ofNat n := by
  unfold codeUnitChar Char.ofNat
  rw [dif_pos h, dif_pos h]

/-- A character's own code point decodes back to it. -/
theorem codeUnitChar_toNat (c : Char) : codeUnitChar c.toNat = c := by
  have h : c.toNat.isValidChar := c.valid
  rw [codeUnitChar_valid _ h, Char.ofNat_toNat]

/-- One escaped character is consumed in one step of the string scanner. -/
theorem readStr_escapeOne (fuel : Nat) (acc : List Char) (c : Char)
    (rest : List Char) :
    readStr (fuel + 1) acc (escapeOne c ++ rest) = readStr fuel (c :: acc) rest := by
  unfold escapeOne
  by_cases h1 : c = '"'
  · simp [h1, readStr, shortEscape]
  by_cases h2 : c = '\\'
  · simp [h1, h2, readStr, shortEscape]
  by_cases h3 : c = Char.ofNat 8
  · simp [h1, h2, h3, readStr, shortEscape]
  by_cases h4 : c = Char.ofNat 9
  · simp [h1, h2, h3, h4, readStr, shortEscape]
  by_cases h5 : c = Char.ofNat 10
  · simp [h1, h2, h3, h4, h5, readStr, shortEscape]
  by_cases h6 : c = Char.ofNat 12
  · simp [h1, h2, h3, h4, h5, h6, readStr, shortEscape]
  by_cases h7 : c = Char.ofNat 13
  · simp [h1, h2, h3, h4, h5, h6, h7, readStr, shortEscape]
  by_cases h8 : c.toNat < 0x20
  · have hq : hexQuad '0' '0' (hexDigChar (c.toNat / 16)) (hexDigChar (c.toNat % 16)) =
        some c.toNat := by
      have hd1 : c.toNat / 16 < 16 := by omega
      have hd2 : c.toNat % 16 < 16 := Nat.mod_lt _ (by omega)
      simp only [hexQuad, hexNib_hexDigChar _ hd1, hexNib_hexDigChar _ hd2]
      show some _ = _
      congr 1
      have h48 : ('0').toNat = 48 := rfl
      omega
    have hsur : isHighSur c.toNat = false := by
      simp only [isHighSur, Bool.and_eq_false_iff]
      left
      simp only [decide_eq_false_iff_not, not_le]
      omega
    rw [if_neg h1, if_neg h2, if_neg h3, if_neg h4, if_neg h5, if_neg h6, if_neg h7,
      if_pos h8]
    simp only [List.cons_append, List.nil_append, readStr]
    simp [hq, hsur, codeUnitChar_toNat]
  · rw [if_neg h1, if_neg h2, if_neg h3, if_neg h4, if_neg h5, if_neg h6, if_neg h7,
      if_neg h8]
    simp only [List.cons_append, List.nil_append, readStr]
    rw [if_neg h1, if_neg h2, if_neg (by omega : ¬c.toNat < 0x20)]

/-- The string scanner inverts the escaper over a whole body. -/
theorem readStr_escaped_body : ∀ (cs : List Char) (fuel : Nat) (acc rest : List Char),
    cs.length < fuel →
    readStr fuel acc (cs.flatMap escapeOne ++ '"' :: rest) =
      some (String.mk (acc.reverse ++ cs), rest) := by
  intro cs
  induction cs with
  | nil =>
      intro fuel acc rest hf
      match fuel, hf with
      | fuel + 1, _ => simp [readStr]
  | cons c t ih =>
      intro fuel acc rest hf
      match fuel, hf with
      | fuel + 1, hf =>
          rw [List.flatMap_cons, List.append_assoc, readStr_escapeOne, ih fuel _ _
            (by simpa using Nat.lt_of_succ_lt_succ hf)]
          simp


/-- The digit character of `k < 10` is a digit and carries `k`. -/
theorem digitChar_spec : ∀ k < 10,
    isDig (Char.ofNat ('0'.toNat + k)) = true ∧
      (Char.ofNat ('0'.toNat + k)).toNat - '0'.toNat = k := by decide

/-- The accumulator of `natChars` rides along on the right. -/
theorem natChars_acc (n : Nat) : ∀ acc : List Char,
    natChars n acc = natChars n [] ++ acc := by
  induction n using Nat.strongRecOn with
  | _ n ih =>
    intro acc
    conv_lhs => rw [natChars]
    conv_rhs => rw [natChars]
    by_cases h : n < 10
    · simp only [if_pos h]
      simp
    · simp only [if_neg h]
      rw [ih (n / 10) (by omega) (Char.ofNat ('0'.toNat + n % 10) :: acc),
        ih (n / 10) (by omega) [Char.ofNat ('0'.toNat + n % 10)]]
      simp

/-- `natChars` in least-significant-last form. -/
theorem natChars_unfold (n : Nat) :
    natChars n [] = (if n < 10 then [] else natChars (n / 10) [])
      ++ [Char.ofNat ('0'.toNat + n % 10)] := by
  rw [natChars]
  by_cases h : n < 10
  · simp [h]
  · rw [if_neg h, if_neg h]
    exact natChars_acc (n / 10) [Char.ofNat ('0'.toNat + n % 10)]

/-- `natChars` never returns the empty list. -/
theorem natChars_ne_nil (n : Nat) : natChars n [] ≠ [] := by
  rw [natChars_unfold]
  simp

/-- Every character `natChars` emits is a digit. -/
theorem natChars_digits (n : Nat) : ∀ c ∈ natChars n [], isDig c = true := by
  induction n using Nat.strongRecOn with
  | _ n ih =>
    rw [natChars_unfold]
    intro c hc
    rcases List.mem_append.mp hc with h | h
    · rcases Nat.lt_or_ge n 10 with h10 | h10
      · simp [h10] at h
      · refine ih (n / 10) (by omega) c ?_
        simpa [Nat.not_lt.mpr h10] using h
    · rw [List.mem_singleton] at h
      subst h
      exact (digitChar_spec (n % 10) (Nat.mod_lt _ (by omega))).1

/-- `digitsVal` recovers the number `natChars` prints. -/
theorem digitsVal_natChars (n : Nat) : digitsVal (natChars n []) = n := by
  induction n using Nat.strongRecOn with
  | _ n ih =>
    rw [natChars_unfold]
    unfold digitsVal
    rw [List.foldl_append]
    by_cases h : n < 10
    · simp only [if_pos h, List.foldl_nil, List.foldl_cons]
      rw [(digitChar_spec (n % 10) (Nat.mod_lt _ (by omega))).2]
      omega
    · simp only [if_neg h, List.foldl_cons, List.foldl_nil]
      have hrec := ih (n / 10) (by omega)
      unfold digitsVal at hrec
      rw [hrec, (digitChar_spec (n % 10) (Nat.mod_lt _ (by omega))).2]
      omega

/-- A remainder that cannot extend a digit run. -/
def digitStop : List Char → Bool
  | [] => true
  | c :: _ => !isDig c

/-- `grabDigits` yields nothing at a stopper. -/
theorem grabDigits_stop {cs : List Char} (h : digitStop cs = true) :
    grabDigits cs = ([], cs) := by
  cases cs with
  | nil => rfl
  | cons c t =>
      rw [digitStop, Bool.not_eq_true'] at h
      simp [grabDigits, h]

/-- `grabDigits` takes exactly a digit run followed by a stopper. -/
theorem grabDigits_run (ds : List Char) (hds : ∀ c ∈ ds, isDig c = true)
    (rest : List Char) (hrest : digitStop rest = true) :
    grabDigits (ds ++ rest) = (ds, rest) := by
  induction ds with
  | nil => simpa using grabDigits_stop hrest
  | cons c t ih =>
      have hc : isDig c = true := hds c (List.mem_cons_self c t)
      have htl := ih fun x hx => hds x (List.mem_cons_of_mem c hx)
      simp [grabDigits, hc, htl]

/-- Digits are not the minus sign. -/
theorem digit_ne_minus {c : Char} (h : isDig c = true) : c ≠ '-' := by
  intro heq
  subst heq
  exact absurd h (by decide)

/-- `readInt` inverts `intChars` whenever the remainder cannot extend the
digit run. -/
theorem readInt_intChars (n : Int) (rest : List Char) (h : digitStop rest = true) :
    readInt (intChars n ++ rest) = some (n, rest) := by
  by_cases hn : n < 0
  · have harg : intChars n ++ rest = '-' :: (natChars n.natAbs [] ++ rest) := by
      simp [intChars, hn]
    rw [harg]
    unfold readInt
    split
    · next r heq =>
        rw [List.cons.injEq] at heq
        obtain ⟨-, hr⟩ := heq
        subst hr
        rw [grabDigits_run _ (natChars_digits _) _ h]
        dsimp only
        rw [if_neg (by simpa using natChars_ne_nil n.natAbs)]
        simp only [Option.some.injEq, Prod.mk.injEq, digitsVal_natChars]
        exact ⟨by omega, trivial⟩
    · rename_i hne
      exact (hne _ rfl).elim
  · obtain ⟨c0, t0, h0⟩ : ∃ c0 t0, natChars n.natAbs [] = c0 :: t0 := by
      match hh : natChars n.natAbs [] with
      | [] => exact absurd hh (natChars_ne_nil _)
      | c0 :: t0 => exact ⟨c0, t0, rfl⟩
    have hc0 : isDig c0 = true := natChars_digits _ c0 (h0 ▸ List.mem_cons_self _ _)
    have harg : intChars n ++ rest = c0 :: (t0 ++ rest) := by
      simp [intChars, hn, h0]
    have hrun : grabDigits (c0 :: (t0 ++ rest)) = (c0 :: t0, rest) := by
      have := grabDigits_run (c0 :: t0) (fun x hx => natChars_digits _ x (h0 ▸ hx))
        rest h
      simpa using this
    rw [harg]
    unfold readInt
    split
    · next r heq =>
        rw [List.cons.injEq] at heq
        exact absurd heq.1 (digit_ne_minus hc0)
    · rw [hrun]
      dsimp only
      rw [if_neg (by simp)]
      have hv : digitsVal (c0 :: t0) = n.natAbs := h0 ▸ digitsVal_natChars n.natAbs
      simp only [hv, Option.some.injEq, Prod.mk.injEq]
      exact ⟨by omega, trivial⟩

/-- `parseVal` on a symbolic digit-headed input dispatches to `readInt`. -/
theorem parseVal_digit (fuel : Nat) (c : Char) (r : List Char) (hc : isDig c = true) :
    parseVal (fuel + 1) (c :: r) =
      (match readInt (c :: r) with
       | some (n, r2) => some (.num n, r2)
       | none => none) := by
  have h0 : 48 ≤ c.toNat ∧ c.toNat ≤ 57 := by
    simpa [isDig, Char.le_def] using hc
  have hsp : c ≠ ' ' := by intro h; subst h; exact absurd h0 (by decide)
  have h9 : c ≠ Char.ofNat 9 := by intro h; subst h; exact absurd h0 (by decide)
  have h10 : c ≠ Char.ofNat 10 := by intro h; subst h; exact absurd h0 (by decide)
  have h13 : c ≠ Char.ofNat 13 := by intro h; subst h; exact absurd h0 (by decide)
  have hws : jsonWs c = false := by simp [jsonWs, hsp, h9, h10, h13]
  have hn : c ≠ 'n' := by intro h; subst h; exact absurd h0 (by decide)
  have ht : c ≠ 't' := by intro h; subst h; exact absurd h0 (by decide)
  have hf : c ≠ 'f' := by intro h; subst h; exact absurd h0 (by decide)
  have hq : c ≠ '"' := by intro h; subst h; exact absurd h0 (by decide)
  have hlb : c ≠ '[' := by intro h; subst h; exact absurd h0 (by decide)
  have hlb2 : c ≠ lbrace := by intro h; subst h; exact absurd h0 (by decide)
  simp [parseVal, dropWs, hws, hn, ht, hf, hq, hlb, hlb2, hc]

/-- A digit character is not whitespace, not a closing bracket and not the
closing brace. -/
theorem digit_head_facts {c : Char} (hc : isDig c = true) :
    jsonWs c = false ∧ c ≠ ']' ∧ c ≠ rbrace := by
  have h0 : 48 ≤ c.toNat ∧ c.toNat ≤ 57 := by
    simpa [isDig, Char.le_def] using hc
  have hsp : c ≠ ' ' := by intro h; subst h; exact absurd h0 (by decide)
  have h9 : c ≠ Char.ofNat 9 := by intro h; subst h; exact absurd h0 (by decide)
  have h10 : c ≠ Char.ofNat 10 := by intro h; subst h; exact absurd h0 (by decide)
  have h13 : c ≠ Char.ofNat 13 := by intro h; subst h; exact absurd h0 (by decide)
  refine ⟨by simp [jsonWs, hsp, h9, h10, h13], ?_, ?_⟩
  · intro h; subst h; exact absurd h0 (by decide)
  · intro h; subst h; exact absurd h0 (by decide)

/-- Every rendered value starts with a non-whitespace character that is
neither a closing bracket nor the closing brace. -/
theorem render_head (j : Json) :
    ∃ c t, render j = c :: t ∧ jsonWs c = false ∧ c ≠ ']' ∧ c ≠ rbrace := by
  cases j with
  | null => exact ⟨'n', _, rfl, by decide⟩
  | bool b => cases b
              · exact ⟨'f', _, rfl, by decide⟩
              · exact ⟨'t', _, rfl, by decide⟩
  | num n =>
      by_cases hn : n < 0
      · refine ⟨'-', natChars n.natAbs [], ?_, by decide, by decide, by decide⟩
        simp [render, intChars, hn]
      · obtain ⟨c0, t0, h0⟩ : ∃ c0 t0, natChars n.natAbs [] = c0 :: t0 := by
          match hh : natChars n.natAbs [] with
          | [] => exact absurd hh (natChars_ne_nil _)
          | c0 :: t0 => exact ⟨c0, t0, rfl⟩
        have hc0 : isDig c0 = true := natChars_digits _ c0 (h0 ▸ List.mem_cons_self _ _)
        obtain ⟨hw, hb, hr⟩ := digit_head_facts hc0
        exact ⟨c0, t0, by simp [render, intChars, hn, h0], hw, hb, hr⟩
  | str s => exact ⟨'"', _, rfl, by decide⟩
  | arr es => exact ⟨'[', _, rfl, by decide⟩
  | obj ms => exact ⟨lbrace, _, rfl, by decide⟩

/-- A rendered value is never empty. -/
theorem render_len_pos (j : Json) : 1 ≤ (render j).length := by
  obtain ⟨c, t, h, -, -, -⟩ := render_head j
  simp [h]

/-- `parseVal` skips one leading blank. -/
theorem parseVal_space (fuel : Nat) (x : List Char) :
    parseVal fuel (' ' :: x) = parseVal fuel x := by
  cases fuel with
  | zero => rfl
  | succ f =>
      conv_lhs => rw [parseVal]
      conv_rhs => rw [parseVal]
      rw [dropWs_space]

/-- One escaped character occupies at least one rendered character. -/
theorem escapeOne_len (c : Char) : 1 ≤ (escapeOne c).length := by
  unfold escapeOne
  repeat' split
  all_goals simp

/-- Escaping a string never shortens it. -/
theorem flatMap_escapeOne_le (cs : List Char) :
    cs.length ≤ (cs.flatMap escapeOne).length := by
  induction cs with
  | nil => simp
  | cons c t ih =>
      have := escapeOne_len c
      simp only [List.flatMap_cons, List.length_append, List.length_cons]
      omega

/-- A string is rebuilt from its character list. -/
theorem mkToList (s : String) : String.mk s.toList = s := rfl

/-- The scanner called by `parseVal` on a rendered string body returns the
original string and the untouched remainder. -/
theorem readStr_render (s : String) (rest : List Char) :
    readStr ((s.toList.flatMap escapeOne ++ '"' :: rest).length + 1) []
        (s.toList.flatMap escapeOne ++ '"' :: rest) = some (s, rest) := by
  have h := readStr_escaped_body s.toList
    ((s.toList.flatMap escapeOne ++ '"' :: rest).length + 1) [] rest
    (by
      have h1 := flatMap_escapeOne_le s.toList
      rw [List.length_append, List.length_cons]
      omega)
  simpa [mkToList] using h

/-- A non-whitespace character differs from each JSON whitespace character. -/
theorem not_ws_facts {c : Char} (h : jsonWs c = false) :
    c ≠ ' ' ∧ c ≠ Char.ofNat 9 ∧ c ≠ Char.ofNat 10 ∧ c ≠ Char.ofNat 13 := by
  have h' := h
  simp [jsonWs] at h'
  exact ⟨h'.1.1.1, h'.1.1.2, h'.1.2, h'.2⟩

/-- `readStr_render` restated over the raw character data of the string. -/
theorem readStr_render2 (s : String) (rest : List Char) :
    readStr ((s.data.flatMap escapeOne ++ '"' :: rest).length + 1) []
        (s.data.flatMap escapeOne ++ '"' :: rest) = some (s, rest) :=
  readStr_render s rest

set_option maxHeartbeats 1000000 in
theorem rt_parse : ∀ fuel : Nat,
    (∀ (j : Json) (rest : List Char), (render j).length ≤ fuel →
        digitStop rest = true →
        parseVal fuel (render j ++ rest) = some (j, rest)) ∧
    (∀ (e : Json) (es : List Json) (rest : List Char),
        (renderItems (e :: es)).length + 1 ≤ fuel →
        parseItems fuel (renderItems (e :: es) ++ ']' :: rest) =
          some (e :: es, rest)) ∧
    (∀ (k : String) (v : Json) (ms : List (String × Json)) (rest : List Char),
        (renderPairs ((k, v) :: ms)).length + 1 ≤ fuel →
        parsePairs fuel (renderPairs ((k, v) :: ms) ++ rbrace :: rest) =
          some ((k, v) :: ms, rest)) := by
  intro fuel
  induction fuel with
  | zero =>
      refine ⟨fun j rest hlen _ => absurd hlen ?_,
        fun e es rest hlen => absurd hlen ?_,
        fun k v ms rest hlen => absurd hlen ?_⟩
      · have := render_len_pos j
        omega
      · omega
      · omega
  | succ f ih =>
      obtain ⟨ihA, ihB, ihC⟩ := ih
      refine ⟨?_, ?_, ?_⟩
      · -- parseVal reads back one rendered value
        intro j rest hlen hstop
        cases j with
        | null => simp [render, parseVal, dropWs, jsonWs]
        | bool b => cases b <;> simp [render, parseVal, dropWs, jsonWs]
        | num n =>
            have hri := readInt_intChars n rest hstop
            by_cases hn : n < 0
            · have harg : intChars n ++ rest = '-' :: (natChars n.natAbs [] ++ rest) := by
                simp [intChars, hn]
              rw [show render (Json.num n) = intChars n from rfl, harg]
              rw [harg] at hri
              simp [parseVal, dropWs, jsonWs, hri,
                show ('-' : Char) ≠ lbrace from by decide]
            · obtain ⟨c0, t0, h0⟩ : ∃ c0 t0, natChars n.natAbs [] = c0 :: t0 := by
                match hh : natChars n.natAbs [] with
                | [] => exact absurd hh (natChars_ne_nil _)
                | c0 :: t0 => exact ⟨c0, t0, rfl⟩
              have hc0 : isDig c0 = true :=
                natChars_digits _ c0 (h0 ▸ List.mem_cons_self _ _)
              have harg : intChars n ++ rest = c0 :: (t0 ++ rest) := by
                simp [intChars, hn, h0]
              rw [show render (Json.num n) = intChars n from rfl, harg]
              rw [harg] at hri
              rw [parseVal_digit f c0 (t0 ++ rest) hc0, hri]
        | str s =>
            have hr := readStr_render s rest
            obtain ⟨X, hX⟩ : ∃ X, s.toList.flatMap escapeOne ++ '"' :: rest = X :=
              ⟨_, rfl⟩
            rw [hX] at hr
            rw [show render (Json.str s) ++ rest = '"' :: X from by
              rw [← hX]
              simp [render, renderStr]]
            simp [parseVal, dropWs, jsonWs, hr]
        | arr es =>
            cases es with
            | nil => simp [render, renderItems, parseVal, dropWs, jsonWs]
            | cons e es2 =>
                have hlen2 : (renderItems (e :: es2)).length + 1 ≤ f := by
                  simp [render] at hlen
                  omega
                have hB := ihB e es2 rest hlen2
                obtain ⟨c, t, hre, hws, hc1, hc2⟩ := render_head e
                have hB' : parseItems f
                    (c :: (t ++ (renderItemsTail es2 ++ ']' :: rest)))
                    = some (e :: es2, rest) := by
                  rw [show c :: (t ++ (renderItemsTail es2 ++ ']' :: rest))
                      = renderItems (e :: es2) ++ ']' :: rest from by
                    simp [renderItems, hre]]
                  exact hB
                rw [show render (Json.arr (e :: es2)) ++ rest
                    = '[' :: (c :: (t ++ (renderItemsTail es2 ++ ']' :: rest))) from by
                  simp [render, renderItems, hre]]
                obtain ⟨w1, w2, w3, w4⟩ := not_ws_facts hws
                simp [parseVal, dropWs, jsonWs, w1, w2, w3, w4, hc1, hB']
        | obj ms =>
            cases ms with
            | nil =>
                simp [render, renderPairs, parseVal, dropWs, jsonWs, lbrace, rbrace]
            | cons kv ms2 =>
                obtain ⟨k, v⟩ := kv
                have hlen2 : (renderPairs ((k, v) :: ms2)).length + 1 ≤ f := by
                  simp [render] at hlen
                  omega
                have hC := ihC k v ms2 rest hlen2
                have hC' : parsePairs f
                    ('"' :: (k.data.flatMap escapeOne ++ '"' ::
                      (':' :: ' ' :: (render v ++
                        (renderPairsTail ms2 ++ rbrace :: rest)))))
                    = some ((k, v) :: ms2, rest) := by
                  rw [show '"' :: (k.data.flatMap escapeOne ++ '"' ::
                        (':' :: ' ' :: (render v ++
                          (renderPairsTail ms2 ++ rbrace :: rest))))
                      = renderPairs ((k, v) :: ms2) ++ rbrace :: rest from by
                    simp [renderPairs, renderStr]]
                  exact hC
                rw [show render (Json.obj ((k, v) :: ms2)) ++ rest
                    = lbrace :: ('"' :: (k.data.flatMap escapeOne ++ '"' ::
                        (':' :: ' ' :: (render v ++
                          (renderPairsTail ms2 ++ rbrace :: rest))))) from by
                  simp [render, renderPairs, renderStr]]
                simp [parseVal, dropWs, jsonWs,
                  show lbrace ≠ ' ' from by decide,
                  show lbrace ≠ Char.ofNat 9 from by decide,
                  show lbrace ≠ Char.ofNat 10 from by decide,
                  show lbrace ≠ Char.ofNat 13 from by decide,
                  show lbrace ≠ 'n' from by decide,
                  show lbrace ≠ 't' from by decide,
                  show lbrace ≠ 'f' from by decide,
                  show lbrace ≠ '"' from by decide,
                  show lbrace ≠ '[' from by decide,
                  show ('"' : Char) ≠ rbrace from by decide,
                  hC']
      · -- parseItems reads back a rendered nonempty item list
        intro e es rest hlen
        have hstop' : digitStop (renderItemsTail es ++ ']' :: rest) = true := by
          cases es <;> simp [renderItemsTail, digitStop, isDig]
        have hre : (render e).length ≤ (renderItems (e :: es)).length := by
          simp [renderItems]
        have hA := ihA e (renderItemsTail es ++ ']' :: rest) (by omega) hstop'
        have harg : renderItems (e :: es) ++ ']' :: rest
            = render e ++ (renderItemsTail es ++ ']' :: rest) := by
          simp [renderItems]
        rw [harg]
        rw [parseItems]
        try dsimp only
        rw [hA]
        cases es with
        | nil => simp [renderItemsTail, dropWs, jsonWs]
        | cons e2 es2 =>
            have hlen2 : (renderItems (e2 :: es2)).length + 1 ≤ f := by
              have h1 := render_len_pos e
              simp [renderItems, renderItemsTail] at hlen
              simp [renderItems]
              omega
            have hB := ihB e2 es2 rest hlen2
            obtain ⟨c2, t2, hre2, hws2, -, -⟩ := render_head e2
            have hB' : parseItems f
                (c2 :: (t2 ++ (renderItemsTail es2 ++ ']' :: rest)))
                = some (e2 :: es2, rest) := by
              rw [show c2 :: (t2 ++ (renderItemsTail es2 ++ ']' :: rest))
                  = renderItems (e2 :: es2) ++ ']' :: rest from by
                simp [renderItems, hre2]]
              exact hB
            rw [show renderItemsTail (e2 :: es2) ++ ']' :: rest
                = ',' :: ' ' :: (c2 :: (t2 ++ (renderItemsTail es2 ++ ']' :: rest)))
                from by simp [renderItemsTail, hre2]]
            obtain ⟨w1, w2, w3, w4⟩ := not_ws_facts hws2
            simp [dropWs, jsonWs, w1, w2, w3, w4, hB']
      · -- parsePairs reads back a rendered nonempty member list
        intro k v ms rest hlen
        have hstop' : digitStop (renderPairsTail ms ++ rbrace :: rest) = true := by
          cases ms with
          | nil => simp [renderPairsTail, digitStop, isDig, rbrace]
          | cons m ms2 =>
              obtain ⟨k2, v2⟩ := m
              simp [renderPairsTail, digitStop, isDig]
        have hrv : (render v).length ≤ (renderPairs ((k, v) :: ms)).length := by
          simp [renderPairs]
          omega
        have hA := ihA v (renderPairsTail ms ++ rbrace :: rest) (by omega) hstop'
        obtain ⟨Y, hY⟩ : ∃ Y, k.data.flatMap escapeOne ++ '"' ::
            (':' :: ' ' :: (render v ++ (renderPairsTail ms ++ rbrace :: rest))) = Y :=
          ⟨_, rfl⟩
        have hk : readStr (Y.length + 1) [] Y
            = some (k, ':' :: ' ' ::
                (render v ++ (renderPairsTail ms ++ rbrace :: rest))) := by
          rw [← hY]
          exact readStr_render2 k _
        rw [show renderPairs ((k, v) :: ms) ++ rbrace :: rest = '"' :: Y from by
          rw [← hY]
          simp [renderPairs, renderStr]]
        rw [parsePairs]
        try dsimp only
        rw [dropWs_cons_of_not_ws _ (by decide)]
        cases ms with
        | nil =>
            simp only [renderPairsTail, List.nil_append] at hA
            simp [hk, hA, parseVal_space, dropWs, jsonWs, renderPairsTail,
              show rbrace ≠ ' ' from by decide,
              show rbrace ≠ Char.ofNat 9 from by decide,
              show rbrace ≠ Char.ofNat 10 from by decide,
              show rbrace ≠ Char.ofNat 13 from by decide,
              show rbrace ≠ ',' from by decide]
        | cons m ms2 =>
            obtain ⟨k2, v2⟩ := m
            have h1 := render_len_pos v
            have hlen2 : (renderPairs ((k2, v2) :: ms2)).length + 1 ≤ f := by
              simp [renderPairs, renderPairsTail, renderStr] at hlen ⊢
              omega
            have hC := ihC k2 v2 ms2 rest hlen2
            have hC' : parsePairs f
                ('"' :: (k2.data.flatMap escapeOne ++ '"' ::
                  (':' :: ' ' :: (render v2 ++
                    (renderPairsTail ms2 ++ rbrace :: rest)))))
                = some ((k2, v2) :: ms2, rest) := by
              rw [show '"' :: (k2.data.flatMap escapeOne ++ '"' ::
                    (':' :: ' ' :: (render v2 ++
                      (renderPairsTail ms2 ++ rbrace :: rest))))
                  = renderPairs ((k2, v2) :: ms2) ++ rbrace :: rest from by
                simp [renderPairs, renderStr]]
              exact hC
            simp [renderPairsTail, renderStr, String.toList] at hA
            simp [hk, hA, parseVal_space, dropWs, jsonWs, renderPairsTail,
              renderStr, String.toList, hC']

/-- `json.loads` inverts `json.dumps` on the embedded grammar. -/
theorem parseDoc_serialize (j : Json) : parseDoc (serialize j) = some j := by
  have h := (rt_parse ((render j).length + 1)).1 j [] (by omega) (by rfl)
  rw [List.append_nil] at h
  unfold parseDoc serialize
  rw [show (String.mk (render j)).toList = render j from rfl]
  rw [h]
  rfl

/-- C8: repairing the strict serialization of a JSON object returns that
object unchanged — `_extract_json` is the identity on `json.dumps` output
(round-trip law), because the strict whole-text parse already succeeds. -/
theorem C8_repair_round_trip (kvs : List (String × Json)) :
    extractJson (serialize (Json.obj kvs)) = Json.obj kvs := by
  unfold extractJson
  rw [parseDoc_serialize]

end APILog
